import Mathlib

/-!
Verification of the IntentIQ identity resolution submodule
(`modules/intentIqIdSystem.js`): a shallow embedding of its data model,
storage layer, cipher, and the `getId` state machine, together with proofs
about cache invalidation, callback delivery, and response application.

Conventions used throughout the embedding:
* JavaScript numbers that the module uses as epoch milliseconds, TTLs and
  counters are modelled as `Int`; absent (`undefined`) fields as `Option`.
* JavaScript truthiness is made explicit through small helper functions
  (`jsTruthyStrOpt`, `jsFalsyOptInt`).
* String keys, partner ids and consent strings are carried as-is.
-/

namespace IntentIq

/-- The submodule name, `MODULE_NAME = 'intentIqId'`; it doubles as the fixed
cipher passphrase. -/
def MODULE_NAME : String := "intentIqId"

/-- Modelled from the spec: the value of the `EMPTY` constant imported from the
external `intentIqConstants` library (not part of this repository's sources);
it is an opaque fixed string used to initialise consent snapshot fields. -/
def EMPTY : String := "EMPTY"

/-- The `INVALID_ID` sentinel stored in place of empty partner data. -/
def INVALID_ID : String := "INVALID_ID"

/-! ## Cipher

`encryptData`/`decryptData` delegate to the external `crypto-js` AES
implementation, which is not part of this repository's sources. -/

/-- Number of Unicode scalar values (code points minus the surrogate range);
the cipher below permutes this space. -/
def charSpace : Nat := 0x10F800

/-- Index of a valid scalar value inside the gap-free enumeration of the
scalar-value space. -/
def charToIdx (c : Char) : Nat :=
  if c.toNat < 0xD800 then c.toNat else c.toNat - 0x800

/-- Inverse enumeration: the scalar value at index `i` (for `i < charSpace`). -/
def idxToChar (i : Nat) : Char :=
  if i < 0xD800 then Char.ofNat i else Char.ofNat (i + 0x800)

/-- Modelled from the spec: the fixed key the cipher derives from the
module-scoped passphrase (`AES.encrypt(plainText, MODULE_NAME)` in the source
uses `MODULE_NAME` as passphrase). -/
def cipherKey : Nat := (MODULE_NAME.data.map Char.toNat).sum

/-- Encryption of one character: shift its scalar-value index by the key. -/
def encChar (c : Char) : Char :=
  idxToChar ((charToIdx c + cipherKey) % charSpace)

/-- Decryption of one character: shift back by the key. -/
def decChar (c : Char) : Char :=
  idxToChar ((charToIdx c + (charSpace - cipherKey % charSpace)) % charSpace)

/-- Modelled from the spec: `encryptData(plainText)` — "symmetric
encrypt/decrypt of a UTF-8 string using a fixed, module-scoped passphrase".
The external AES cipher is modelled as a keyed substitution over scalar
values. -/
def encryptData (plainText : String) : String :=
  String.mk (plainText.data.map encChar)

/-- Modelled from the spec: `decryptData(encryptedText)`, inverse of
`encryptData` under the same fixed passphrase. -/
def decryptData (encryptedText : String) : String :=
  String.mk (encryptedText.data.map decChar)

/-! ## JSON serialization of identity payloads

`JSON.stringify`/`JSON.parse` are JavaScript builtins, not part of this
repository's sources. They are modelled below restricted to the payload
shapes the module reads and writes: the resolved-identity object
`\x7beids: [...]\x7d` (identity entries modelled as opaque strings) and the
empty object; any other text is a parse failure (`tryParse` returns null). -/

/-- A JSON value as the module's runtime sees a parsed payload: either an
object carrying an `eids` list, or some other successfully parsed value
without an `eids` field. A failed parse is `none` at use sites. -/
inductive RuntimeVal
  | eidsObj (eids : List String)
  | nonEids
deriving DecidableEq, Repr

/-- Escape a string for embedding in a JSON quoted literal. -/
def escapeJson (s : String) : String :=
  String.mk (s.data.foldr (fun c acc =>
    if c = '"' ∨ c = '\\' then '\\' :: c :: acc else c :: acc) [])

/-- Modelled from the spec: `JSON.stringify` of a resolved-identity object
`\x7beids: [...]\x7d` ("Values are JSON-serialized text"). -/
def jsonStringifyIdentity (eids : List String) : String :=
  "\x7b\"eids\":[" ++
    String.intercalate "," (eids.map (fun s => "\"" ++ escapeJson s ++ "\"")) ++
    "]\x7d"

/-- Read a JSON quoted string body (after the opening quote), undoing
backslash escapes; returns the string and the rest of the input. -/
def readQuoted : List Char → List Char → Option (String × List Char)
  | _, [] => none
  | acc, '\\' :: d :: rest => readQuoted (d :: acc) rest
  | acc, '"' :: rest => some (String.mk acc.reverse, rest)
  | acc, c :: rest => readQuoted (c :: acc) rest

/-- Read a comma-separated list of JSON quoted strings, leaving the closing
bracket in the remainder. `fuel` bounds recursion by the input length. -/
def readStrItems (fuel : Nat) (cs : List Char) : Option (List String × List Char) :=
  match fuel with
  | 0 => none
  | fuel + 1 =>
    match cs with
    | '"' :: rest =>
      match readQuoted [] rest with
      | some (s, ',' :: rest2) =>
        match readStrItems fuel rest2 with
        | some (l, rest3) => some (s :: l, rest3)
        | none => none
      | some (s, rest2) => some ([s], rest2)
      | none => none
    | _ => none

/-- Modelled from the spec: `tryParse` (a `JSON.parse` wrapped so that a
malformed document yields null instead of an exception), restricted to the
payload shapes this module stores; `none` models null. -/
def tryParseRuntime (s : String) : Option RuntimeVal :=
  let cs := s.data
  if cs = ("\x7b\x7d").data then some RuntimeVal.nonEids
  else if cs.take 9 = ("\x7b\"eids\":[").data then
    let body := cs.drop 9
    if body = ("]\x7d").data then some (RuntimeVal.eidsObj [])
    else
      match readStrItems (body.length + 1) body with
      | some (l, rest) =>
        if rest = ("]\x7d").data then some (RuntimeVal.eidsObj l) else none
      | none => none
  else none

/-! ## Dual-backend store

`readData` / `storeData` / `removeDataByKey` / `defineStorageType`, over a
state carrying the availability of the two backends
(`storage.hasLocalStorage()`, `storage.cookiesAreEnabled()`) and their
contents. Cookie expiry bookkeeping (the 365-day expiry string passed to
`setCookie`, and the epoch-0 expiry used for deletion) is enforced by the
browser, outside this module; it is modelled as plain insertion/removal. -/

structure StorageState where
  hasLS : Bool
  cookiesOn : Bool
  ls : String → Option String
  cookies : String → Option String

/-- `SUPPORTED_TYPES = ['html5', 'cookie']`. -/
def SUPPORTED_TYPES : List String := ["html5", "cookie"]

/-- `defineStorageType(params)`: non-array or absent input (modelled as
`none`) falls back to local storage; unsupported entries are filtered out;
an empty filtered list falls back to local storage. -/
def defineStorageType : Option (List String) → List String
  | none => ["html5"]
  | some params =>
    let filteredArr := params.filter (fun item => SUPPORTED_TYPES.contains item)
    if filteredArr.isEmpty then ["html5"] else filteredArr

/-- JS truthiness of an optional string value (`undefined`/`null`/`''` are
falsy). -/
def jsTruthyStrOpt : Option String → Bool
  | some s => s != ""
  | none => false

/-- `readData(key, allowedStorage)`: local storage first when available and
permitted, else cookies when available and permitted; note the first
applicable backend answers even when it holds nothing for `key`. -/
def readData (key : String) (allowedStorage : List String)
    (st : StorageState) : Option String :=
  if st.hasLS && allowedStorage.contains "html5" then st.ls key
  else if st.cookiesOn && allowedStorage.contains "cookie" then st.cookies key
  else none

/-- `storeData(key, value, allowedStorage)`: when the value is truthy, write
it to local storage if available and permitted, and to cookies if available
and permitted (write-through); a falsy value writes nothing. -/
def storeData (key : String) (value : Option String)
    (allowedStorage : List String) (st : StorageState) : StorageState :=
  if jsTruthyStrOpt value then
    let v := value.getD ""
    let st1 :=
      if st.hasLS && allowedStorage.contains "html5" then
        { st with ls := fun k => if k = key then some v else st.ls k }
      else st
    if st1.cookiesOn && allowedStorage.contains "cookie" then
      { st1 with cookies := fun k => if k = key then some v else st1.cookies k }
    else st1
  else st

/-- `removeDataByKey(key, allowedStorage)`: delete from local storage if
available and permitted; expire the cookie (modelled as removal) if
available and permitted. -/
def removeDataByKey (key : String) (allowedStorage : List String)
    (st : StorageState) : StorageState :=
  let st1 :=
    if st.hasLS && allowedStorage.contains "html5" then
      { st with ls := fun k => if k = key then none else st.ls k }
    else st
  if st1.cookiesOn && allowedStorage.contains "cookie" then
    { st1 with cookies := fun k => if k = key then none else st1.cookies k }
  else st1

/-! ## Data model

The two persisted records and the configuration/environment inputs of
`getId`. Storage round-trips the records as JSON text; the embedding keeps
them typed (a well-formed record serializes and re-parses to itself), while
the `data` field's alternation between object and ciphertext-string form is
kept explicit through `DataAtRest`. -/

/-- The experiment/consent cohort constants from the external constants
library, modelled as an enumeration of distinct opaque values. -/
inductive Group
  | NOT_YET_DEFINED
  | WITH_IIQ
  | WITHOUT_IIQ
  | OPT_OUT
  | BLACK_LIST
deriving DecidableEq, Repr

/-- The value of the partner record's `data` field: absent, a string
(ciphertext or the `INVALID_ID` sentinel), the empty object `\x7b\x7d`, an
`\x7beids: [...]\x7d` object, or some other object. Only a non-empty string
has a truthy `.length`. -/
inductive DataAtRest
  | undef
  | str (s : String)
  | emptyObj
  | eidsObj (eids : List String)
  | otherObj
deriving DecidableEq, Repr

/-- The First-Party Identity Record stored under `FIRST_PARTY_KEY`. -/
structure FirstPartyData where
  pcid : Option String := none
  pcidDate : Option Int := none
  group : Option Group := none
  cttl : Option Int := none
  date : Option Int := none
  uspapi_value : Option String := none
  gpp_value : Option String := none
  gpp_string_value : Option String := none
  isOptedOut : Option Bool := none
  pid : Option String := none
deriving DecidableEq, Repr

/-- The Partner Resolution Record stored under `_iiq_fdata_<partner>`. -/
structure PartnerData where
  data : DataAtRest := DataAtRest.undef
  eidl : Option Int := none
  wsrvcll : Option Bool := none
  terminationCause : Option Int := none
  ct : Option Int := none
  siteId : Option Int := none
  rrtt : Option Int := none
  cttl : Option Int := none
  date : Option Int := none
deriving DecidableEq, Repr

/-- The slice of `configParams` that the identity engine reads. `partner`
is `none` when `typeof configParams.partner !== 'number'`; `callback`
records whether a completion callback was supplied. GAM reporting
(`gamObjectReference`/`gamParameterName`) only talks to the external ad
manager and is omitted. -/
structure ConfigParams where
  partner : Option Int := none
  callback : Bool := false
  browserBlackList : Option String := none
  timeoutInMillis : Option Int := none
  pcid : Option String := none
  pai : Option String := none
deriving DecidableEq, Repr

/-- The per-call environment: the clock, consent signals
(`uspDataHandler.getConsentData()`, `getGppValue()`), the detected browser,
and the pseudo-random id `generateGUID()` would produce on this call. The
asynchronous client-hints probe only stores data for future calls and is
omitted. -/
structure Env where
  now : Int := 0
  uspData : Option String := none
  gppString : String := ""
  gpi : Int := 0
  currentBrowser : String := "chrome"
  newPcid : String := "new-pcid"
deriving DecidableEq, Repr

/-- The persisted contents of the two record keys, as `getId` loads and
stores them. -/
structure Stored where
  fp : Option FirstPartyData := none
  pd : Option PartnerData := none
deriving DecidableEq, Repr

/-- One delivery through the partner-supplied completion callback:
`configParams.callback(runtimeEids, group)` from `firePartnerCallback`, or
the direct `configParams.callback('', BLACK_LIST)` on the blacklist path. -/
inductive Delivered
  | identity (v : Option RuntimeVal) (g : Group)
  | blacklisted
deriving DecidableEq, Repr

/-- One invocation of the framework-internal `callback` parameter of the
deferred `resp` function (the Prebid user-id callback, distinct from the
partner callback). -/
inductive PrebidArg
  | valArg (v : Option RuntimeVal)
  | eidsArg (l : List String)
deriving DecidableEq, Repr

/-- The mutable state of one resolution call: the closure variables of
`getId` (`callbackFired`, the timer, `runtimeEids`, `isGroupB`,
`firstPartyData`, `partnerData`, `shouldCallServer`, `rrttStrtTime`),
the persisted snapshots of both records, and observation logs of network
requests and callback invocations. -/
structure MState where
  callbackFired : Bool := false
  timerArmed : Bool := false
  runtimeEids : Option RuntimeVal := some (RuntimeVal.eidsObj [])
  isGroupB : Bool := false
  fp : Option FirstPartyData := none
  pd : PartnerData := {}
  shouldCallServer : Bool := false
  rrttStrtTime : Int := 0
  storeFp : Option FirstPartyData := none
  storePd : Option PartnerData := none
  requests : Nat := 0
  calls : List Delivered := []
  prebidCalls : List PrebidArg := []
deriving DecidableEq, Repr

/-- JS falsiness of an optional integer (absent or zero). -/
def jsFalsyOptInt : Option Int → Bool
  | none => true
  | some n => n == 0

/-- The consent snapshot `cmpData.us_privacy`: set only when
`uspDataHandler.getConsentData()` is truthy. -/
def cmpUsPrivacy (env : Env) : Option String :=
  match env.uspData with
  | some s => if s = "" then none else some s
  | none => none

/-- JS `String.prototype.includes`: substring containment. -/
def strIncludes (hay needle : String) : Bool :=
  (List.range (hay.data.length + 1)).any
    (fun i => needle.data.isPrefixOf (hay.data.drop i))

/-- JS `String.prototype.toLowerCase`, character-wise. -/
def strToLower (s : String) : String := String.mk (s.data.map Char.toLower)

/-- Whether the blacklist short-circuit triggers:
`browserBlackList?.includes(currentBrowserLowerCase)` with a non-string
blacklist option read as `''`. -/
def blacklistHit (cfg : ConfigParams) (env : Env) : Bool :=
  strIncludes (strToLower (cfg.browserBlackList.getD "")) env.currentBrowser

/-- The group label delivered to the callback:
`firstPartyData?.group || NOT_YET_DEFINED`. -/
def groupLabel (fp : Option FirstPartyData) : Group :=
  (fp.bind (fun f => f.group)).getD Group.NOT_YET_DEFINED

/-- `firePartnerCallback`: deliver at most once; clear the timeout; under
`isGroupB` replace the delivered identity with the empty one. -/
def firePartnerCallback (hasCb : Bool) (st : MState) : MState :=
  if hasCb = true ∧ st.callbackFired = false then
    let delivered := if st.isGroupB then some (RuntimeVal.eidsObj []) else st.runtimeEids
    { st with
      callbackFired := true
      timerArmed := false
      runtimeEids := delivered
      calls := st.calls ++ [Delivered.identity delivered (groupLabel st.fp)] }
  else st

/-! ## The `getId` state machine

`getId` is decomposed into phases matching the source's top-to-bottom
control flow; each phase threads the `MState` for one resolution call. -/

/-- The synchronous return value of `getId`: `undefined` on the two
short-circuits, `\x7bid: runtimeEids.eids\x7d` on the no-server path
(`idOnlyUndef` when `runtimeEids` parsed to a value without `eids`, and
`threw` when `runtimeEids` is null so that `runtimeEids.eids` raises a
TypeError), or the deferred response object `\x7bcallback: resp, id?\x7d`. -/
inductive GetIdResult
  | undef
  | idOnly (ids : List String)
  | idOnlyUndef
  | threw
  | deferredResp (withId : Option (List String))
deriving DecidableEq, Repr

/-- The state at the top of `getId`: flags reset, the timeout armed, the
empty runtime identity, `isGroupB` read from the loaded first-party record,
`partnerData = \x7b\x7d`. -/
def initState (store : Stored) : MState :=
  { callbackFired := false
    timerArmed := true
    runtimeEids := some (RuntimeVal.eidsObj [])
    isGroupB := decide ((store.fp.bind (fun f => f.group)) = some Group.WITHOUT_IIQ)
    fp := store.fp
    pd := {}
    shouldCallServer := false
    rrttStrtTime := 0
    storeFp := store.fp
    storePd := store.pd
    requests := 0
    calls := []
    prebidCalls := [] }

/-- The fresh first-party record created when no `pcid` is stored. Note the
fresh record writes `gpp_value`, not the `gpp_string_value` field that the
cache-validity comparison reads. -/
def freshFp (env : Env) : FirstPartyData :=
  { pcid := some env.newPcid
    pcidDate := some env.now
    group := some Group.NOT_YET_DEFINED
    cttl := some 0
    uspapi_value := some EMPTY
    gpp_value := some EMPTY
    date := some env.now }

/-- Lines 318-333: create the first-party record when `pcid` is falsy
(persist immediately), else backfill a falsy `pcidDate`. Returns the
in-memory record used by the rest of the call. -/
def ensurePhase (env : Env) (st : MState) : FirstPartyData × MState :=
  match st.fp with
  | some f =>
    if jsTruthyStrOpt f.pcid then
      if jsFalsyOptInt f.pcidDate then
        let f2 := { f with pcidDate := some env.now }
        (f2, { st with fp := some f2, storeFp := some f2 })
      else (f, st)
    else
      let f2 := freshFp env
      (f2, { st with fp := some f2, storeFp := some f2 })
  | none =>
    let f2 := freshFp env
    (f2, { st with fp := some f2, storeFp := some f2 })

/-- Lines 335-343: adopt the saved partner record; if a previous request
was left in flight (`wsrvcll`), clear the flag and persist. -/
def loadPartnerPhase (st : MState) : MState :=
  match st.storePd with
  | some savedData =>
    if savedData.wsrvcll = some true then
      let pd2 := { savedData with wsrvcll := some false }
      { st with pd := pd2, storePd := some pd2 }
    else { st with pd := savedData }
  | none => st

/-- Lines 345-350: when `partnerData.data` is a non-empty string, decrypt
and parse it into the working runtime identity (null on failure). -/
def decryptPhase (st : MState) : MState :=
  match st.pd.data with
  | DataAtRest.str s =>
    if s ≠ "" then { st with runtimeEids := tryParseRuntime (decryptData s) }
    else st
  | _ => st

/-- The cache-invalid predicate of line 352: `cttl` falsy, or elapsed time
since `date` exceeds `cttl` (false when either side is absent, as NaN
comparisons are), or either stored consent signal differs from the current
snapshot. -/
def cacheInvalid (f : FirstPartyData) (env : Env) : Bool :=
  jsFalsyOptInt f.cttl ||
  (match f.date, f.cttl with
   | some d, some c => decide (env.now - d > c)
   | _, _ => false) ||
  decide (f.uspapi_value ≠ cmpUsPrivacy env) ||
  decide (f.gpp_string_value ≠ some env.gppString)

/-- Lines 352-364: on an invalid cache, refresh the consent snapshot, clear
`isOptedOut`, zero `cttl`, blank the partner record's `data`/`eidl`, persist
both records and mark the server round trip; otherwise fire immediately when
opted out. -/
def invalidPhase (hasCb : Bool) (env : Env) (f : FirstPartyData)
    (st : MState) : FirstPartyData × MState :=
  if cacheInvalid f env then
    let f2 := { f with
      uspapi_value := cmpUsPrivacy env
      gpp_string_value := some env.gppString
      isOptedOut := some false
      cttl := some 0 }
    let pd2 := { st.pd with data := DataAtRest.emptyObj, eidl := some (-1) }
    (f2, { st with
      fp := some f2
      pd := pd2
      shouldCallServer := true
      storeFp := some f2
      storePd := some pd2 })
  else if f.isOptedOut = some true then
    (f, firePartnerCallback hasCb st)
  else (f, st)

/-- Truthiness of `runtimeEids?.eids?.length`. -/
def runtimeHasEids : Option RuntimeVal → Bool
  | some (RuntimeVal.eidsObj l) => !l.isEmpty
  | _ => false

/-- Lines 366-368: fire when the cohort is `WITHOUT_IIQ`, or when it is not
and a non-empty runtime identity exists. -/
def groupFirePhase (hasCb : Bool) (f : FirstPartyData) (st : MState) : MState :=
  if f.group = some Group.WITHOUT_IIQ ∨
      (f.group ≠ some Group.WITHOUT_IIQ ∧ runtimeHasEids st.runtimeEids = true) then
    firePartnerCallback hasCb st
  else st

/-- Lines 370-374 and 503-506: without a required round trip, force the
empty identity for group B, fire, and return `\x7bid: runtimeEids.eids\x7d`
(a TypeError when `runtimeEids` is null); otherwise return the deferred
response object, with `id` attached when a non-empty identity is in hand. -/
def syncReturn (st3 : MState) : GetIdResult :=
  match st3.runtimeEids with
  | none => GetIdResult.threw
  | some (RuntimeVal.eidsObj l) => GetIdResult.idOnly l
  | some RuntimeVal.nonEids => GetIdResult.idOnlyUndef

def deferredId (st : MState) : Option (List String) :=
  match st.runtimeEids with
  | some (RuntimeVal.eidsObj l) => if l.isEmpty then none else some l
  | _ => none

def finishPhase (hasCb : Bool) (st : MState) : GetIdResult × MState :=
  if st.shouldCallServer = false then
    let st2 := if st.isGroupB then { st with runtimeEids := some (RuntimeVal.eidsObj []) } else st
    let st3 := firePartnerCallback hasCb st2
    (syncReturn st3, st3)
  else
    (GetIdResult.deferredResp (deferredId st), st)

/-- `getId(config)`: the synchronous body of one resolution call. The two
early returns (non-numeric partner, blacklisted browser) precede the state
machine; the URL construction (lines 377-393) carries no state and is
omitted. -/
def getId (cfg : ConfigParams) (env : Env) (store : Stored) :
    GetIdResult × MState :=
  let st0 := initState store
  if cfg.partner = none then
    (GetIdResult.undef, firePartnerCallback cfg.callback st0)
  else if blacklistHit cfg env = true then
    (GetIdResult.undef,
      if cfg.callback then { st0 with calls := st0.calls ++ [Delivered.blacklisted] }
      else st0)
  else
    let p1 := ensurePhase env st0
    let st2 := loadPartnerPhase p1.2
    let st3 := decryptPhase st2
    let p4 := invalidPhase cfg.callback env p1.1 st3
    let st5 := groupFirePhase cfg.callback p4.1 p4.2
    finishPhase cfg.callback st5

/-! ## Deferred request and response application

The deferred `resp` function (lines 401-502): issuing the request marks
`wsrvcll` and persists the partner record; the `success`/`error` callbacks
reconcile the server response with state and deliver results. -/

/-- A parsed `data` field of the server response: a bare string, an
`\x7beids: [...]\x7d` object, or another object. `Option RespData` at use
sites models field absence. -/
inductive RespData
  | str (s : String)
  | eidsObj (eids : List String)
  | otherObj
deriving DecidableEq, Repr

/-- The recognized fields of a parsed server response; each is optional,
and unrecognized fields are ignored. -/
structure RespJson where
  cttl : Option Int := none
  tc : Option Int := none
  isOptedOut : Option Bool := none
  pid : Option String := none
  ls : Option Bool := none
  data : Option RespData := none
  ct : Option Int := none
  sid : Option Int := none
deriving DecidableEq, Repr

/-- `storeFirstPartyData()` (lines 395-399): record the identity-entry
count (`runtimeEids?.eids?.length || -1`, so an empty list also yields -1)
and persist both records. -/
def storeFirstPartyData (f : FirstPartyData) (st : MState) : MState :=
  let eidl : Int :=
    match st.runtimeEids with
    | some (RuntimeVal.eidsObj l) => if l.length = 0 then -1 else (l.length : Int)
    | _ => -1
  let pd2 := { st.pd with eidl := some eidl }
  { st with fp := some f, pd := pd2, storeFp := some f, storePd := some pd2 }

/-- `defineEmptyDataAndFireCallback` (lines 409-414): blank the response
and partner data and the runtime identity, persist both records, fire the
partner callback, and invoke the framework callback. -/
def defineEmptyDataAndFireCallback (hasCb : Bool) (f : FirstPartyData) (st : MState) : MState :=
  let st1 := { st with
    runtimeEids := some (RuntimeVal.eidsObj [])
    pd := { st.pd with data := DataAtRest.eidsObj [] } }
  let st2 := storeFirstPartyData f st1
  let st3 := firePartnerCallback hasCb st2
  { st3 with prebidCalls := st3.prebidCalls ++ [PrebidArg.valArg st3.runtimeEids] }

/-- Lines 452-460: an empty `data` string becomes the `INVALID_ID`
sentinel; a non-empty bare string is wrapped into `\x7beids: [string]\x7d`;
anything else passes through. -/
def rewriteRespData : Option RespData → Option RespData
  | some (RespData.str s) =>
    if s = "" then some (RespData.str INVALID_ID)
    else some (RespData.eidsObj [s])
  | other => other

/-- The `data` value as assigned into `partnerData.data`. -/
def toRest : Option RespData → DataAtRest
  | none => DataAtRest.undef
  | some (RespData.str s) => DataAtRest.str s
  | some (RespData.eidsObj l) => DataAtRest.eidsObj l
  | some RespData.otherObj => DataAtRest.otherObj

/-- Lines 464-490: diagnostics (`ct`, `sid`, round-trip time), then either
adopt a response carrying `data.eids` as the new identity (deliver it and
persist it ciphertext-encoded) or deliver whatever identity is in hand;
both paths end in `storeFirstPartyData()`. `d` is the (possibly rewritten)
`respJson.data`. -/
def applyCt (respJson : RespJson) (st : MState) : MState :=
  match respJson.ct with
  | some c => { st with pd := { st.pd with ct := some c } }
  | none => st

def applySid (respJson : RespJson) (st : MState) : MState :=
  match respJson.sid with
  | some sid2 => { st with pd := { st.pd with siteId := some sid2 } }
  | none => st

def applyRrtt (now : Int) (st : MState) : MState :=
  if st.rrttStrtTime > 0 then
    { st with pd := { st.pd with rrtt := some (now - st.rrttStrtTime) } }
  else st

def afterLs (hasCb : Bool) (now : Int) (respJson : RespJson)
    (d : Option RespData) (f : FirstPartyData) (st : MState) : MState :=
  let stC := applyRrtt now (applySid respJson (applyCt respJson st))
  match d with
  | some (RespData.eidsObj l) =>
    let stD := { stC with
      runtimeEids := some (RuntimeVal.eidsObj l)
      prebidCalls := stC.prebidCalls ++ [PrebidArg.eidsArg l] }
    let stE := firePartnerCallback hasCb stD
    let stF := { stE with
      pd := { stE.pd with
        data := DataAtRest.str (encryptData (jsonStringifyIdentity l)) } }
    storeFirstPartyData f stF
  | _ =>
    let stD := { stC with prebidCalls := stC.prebidCalls ++ [PrebidArg.valArg stC.runtimeEids] }
    let stE := firePartnerCallback hasCb stD
    storeFirstPartyData f stE

/-- Lines 444-462: record `pid`; then the `ls` block — `ls === false`
short-circuits through `defineEmptyDataAndFireCallback`, an `ls` present
otherwise rewrites and stores `data`, an absent `ls` leaves
`partnerData.data` untouched. -/
def afterOptOut (hasCb : Bool) (now : Int) (respJson : RespJson)
    (f : FirstPartyData) (st : MState) : MState :=
  let f2 := match respJson.pid with
    | some p => { f with pid := some p }
    | none => f
  let st2 := { st with fp := some f2 }
  match respJson.ls with
  | some false => defineEmptyDataAndFireCallback hasCb f2 st2
  | some true =>
    let d := rewriteRespData respJson.data
    afterLs hasCb now respJson d f2 { st2 with pd := { st2.pd with data := toRest d } }
  | none => afterLs hasCb now respJson respJson.data f2 st2

/-- Lines 433-443: adopt `isOptedOut` from the response; `isOptedOut: true`
forces the `OPT_OUT` cohort, persists the first-party record and
short-circuits through `defineEmptyDataAndFireCallback`. -/
def afterTc (hasCb : Bool) (now : Int) (respJson : RespJson)
    (f : FirstPartyData) (st : MState) : MState :=
  match respJson.isOptedOut with
  | some b =>
    let f2 := { f with isOptedOut := some b }
    let st2 := { st with fp := some f2 }
    if b = true then
      let f3 := { f2 with group := some Group.OPT_OUT }
      defineEmptyDataAndFireCallback hasCb f3 { st2 with fp := some f3, storeFp := some f3 }
    else afterOptOut hasCb now respJson f2 st2
  | none => afterOptOut hasCb now respJson f st

/-- The `success` handler for a valid JSON response (lines 406-486): stamp
both records' dates, clear the timeout, adopt `cttl` (one-day default),
then the `tc` block — `tc == 41` forces the `WITHOUT_IIQ` cohort, persists
the first-party record and short-circuits; any other `tc` sets `WITH_IIQ`. -/
def applyValidResponse (hasCb : Bool) (now : Int) (respJson : RespJson)
    (f0 : FirstPartyData) (st0 : MState) : MState :=
  let st1 := { st0 with pd := { st0.pd with date := some now }, timerArmed := false }
  let f1 := { f0 with date := some now, cttl := some (respJson.cttl.getD 86400000) }
  let st2 := { st1 with fp := some f1 }
  match respJson.tc with
  | some t =>
    let st3 := { st2 with pd := { st2.pd with terminationCause := some t } }
    if t = 41 then
      let f2 := { f1 with group := some Group.WITHOUT_IIQ }
      defineEmptyDataAndFireCallback hasCb f2 { st3 with fp := some f2, storeFp := some f2 }
    else
      let f2 := { f1 with group := some Group.WITH_IIQ }
      afterTc hasCb now respJson f2 { st3 with fp := some f2 }
  | none => afterTc hasCb now respJson f1 st2

/-- The `success` handler (lines 403-490): a body that fails to parse as
JSON only delivers the in-hand identity; a valid response is applied. -/
def applyResponse (hasCb : Bool) (now : Int) (resp : Option RespJson)
    (st : MState) : MState :=
  match resp with
  | none =>
    firePartnerCallback hasCb { st with prebidCalls := st.prebidCalls ++ [PrebidArg.valArg st.runtimeEids] }
  | some respJson =>
    match st.fp with
    | none => st
    | some f0 => applyValidResponse hasCb now respJson f0 st

/-- The `error` handler (lines 492-495): deliver the in-hand identity to
the framework callback only; the partner callback is left to the timer. -/
def applyError (st : MState) : MState :=
  { st with prebidCalls := st.prebidCalls ++ [PrebidArg.valArg st.runtimeEids] }

/-- Invoking the deferred `resp` function (lines 497-501): note the request
start time, set `wsrvcll`, persist the partner record and issue the GET
request. -/
def resp (now : Int) (st : MState) : MState :=
  let pd2 := { st.pd with wsrvcll := some true }
  { st with
    rrttStrtTime := now
    pd := pd2
    storePd := some pd2
    requests := st.requests + 1 }

/-- The timeout handler (lines 256-259): when the timer is still armed it
fires the partner callback. -/
def timerFire (hasCb : Bool) (st : MState) : MState :=
  if st.timerArmed = true then firePartnerCallback hasCb { st with timerArmed := false } else st

/-- The asynchronous events that can follow the synchronous part of a
resolution call: the timeout firing, the framework invoking the deferred
handle, the network response arriving (with its parse result), or a
transport error. -/
inductive Ev
  | timer
  | invoke (now : Int)
  | response (now : Int) (r : Option RespJson)
  | netError
deriving DecidableEq, Repr

/-- One asynchronous step. -/
def stepEv (hasCb : Bool) (e : Ev) (st : MState) : MState :=
  match e with
  | Ev.timer => timerFire hasCb st
  | Ev.invoke n => resp n st
  | Ev.response n r => applyResponse hasCb n r st
  | Ev.netError => applyError st

/-- Run a sequence of asynchronous events. -/
def runEvs (hasCb : Bool) (evs : List Ev) (st : MState) : MState :=
  evs.foldl (fun s e => stepEv hasCb e s) st

/-! ## At-most-once delivery machinery

`CbOnce` is the delivery invariant: at most one partner-callback
invocation so far, and none before `callbackFired` is set. Every delivery
that goes through `firePartnerCallback` preserves it; the blacklist path's
direct invocation is the one that does not. -/

def CbOnce (st : MState) : Prop :=
  st.calls.length ≤ 1 ∧ (st.callbackFired = false → st.calls = [])

/-! ## C5 and C6: the synchronous cache path -/

/-- The working resolved identity right after the load-and-decrypt steps:
the empty identity unless the stored partner record's `data` is a non-empty
string, in which case its decrypt+parse result (null on failure). -/
def decryptResult (pdStored : Option PartnerData) : Option RuntimeVal :=
  match pdStored with
  | some pd =>
    match pd.data with
    | DataAtRest.str s =>
      if s ≠ "" then tryParseRuntime (decryptData s)
      else some (RuntimeVal.eidsObj [])
    | _ => some (RuntimeVal.eidsObj [])
  | none => some (RuntimeVal.eidsObj [])

/-! ## Theorems -/

theorem charToIdx_lt (c : Char) : charToIdx c < charSpace := by
  have h : Nat.isValidChar c.toNat := c.valid
  unfold charToIdx charSpace
  rcases h with h | ⟨h1, h2⟩
  · rw [if_pos h]; omega
  · rw [if_neg (by omega : ¬ c.toNat < 0xD800)]; omega

theorem toNat_ofNat_valid (n : Nat) (h : n.isValidChar) :
    (Char.ofNat n).toNat = n := by
  unfold Char.ofNat
  rw [dif_pos h]
  simp [Char.ofNatAux, Char.toNat, UInt32.toNat, UInt32.ofNatTruncate]

theorem idxToChar_charToIdx (c : Char) : idxToChar (charToIdx c) = c := by
  have h : Nat.isValidChar c.toNat := c.valid
  unfold charToIdx idxToChar
  rcases h with h | ⟨h1, h2⟩
  · rw [if_pos h, if_pos h]
    exact Char.ofNat_toNat c
  · rw [if_neg (by omega : ¬ c.toNat < 0xD800),
      if_neg (by omega : ¬ c.toNat - 0x800 < 0xD800)]
    have he : c.toNat - 0x800 + 0x800 = c.toNat := by omega
    rw [he]
    exact Char.ofNat_toNat c

theorem charToIdx_idxToChar (i : Nat) (h : i < charSpace) :
    charToIdx (idxToChar i) = i := by
  have hs : i < 0x10F800 := h
  unfold idxToChar charToIdx
  by_cases hlt : i < 0xD800
  · rw [if_pos hlt, toNat_ofNat_valid i (Or.inl hlt), if_pos hlt]
  · have hv : Nat.isValidChar (i + 0x800) := by
      right
      constructor <;> omega
    rw [if_neg hlt, toNat_ofNat_valid (i + 0x800) hv,
      if_neg (by omega : ¬ i + 0x800 < 0xD800)]
    omega

theorem shift_arith (a k n : Nat) (hpos : 0 < n) (ha : a < n) :
    ((a + k) % n + (n - k % n)) % n = a := by
  have hle := Nat.mod_le k n
  have hk := Nat.mod_lt k hpos
  have hq := Nat.div_add_mod k n
  calc ((a + k) % n + (n - k % n)) % n
      = (a + k + (n - k % n)) % n := by rw [Nat.mod_add_mod]
    _ = (a + (k - k % n) + n) % n := by
        have he : a + k + (n - k % n) = a + (k - k % n) + n := by omega
        rw [he]
    _ = (a + (k - k % n)) % n := by rw [Nat.add_mod_right]
    _ = (a + n * (k / n)) % n := by
        have he : k - k % n = n * (k / n) := by omega
        rw [he]
    _ = a % n := by rw [Nat.mul_comm, Nat.add_mul_mod_self_right]
    _ = a := Nat.mod_eq_of_lt ha

theorem decChar_encChar (c : Char) : decChar (encChar c) = c := by
  have hlt := charToIdx_lt c
  have hpos : 0 < charSpace := by unfold charSpace; omega
  unfold decChar encChar
  rw [charToIdx_idxToChar _ (Nat.mod_lt _ hpos),
    shift_arith _ _ _ hpos hlt]
  exact idxToChar_charToIdx c

/-- C3: For every string plaintext, including the empty string and arbitrary
UTF-8 content, `decryptData(encryptData(plaintext))` equals the plaintext
(cipher round-trip law under the fixed module passphrase). -/
theorem c3_cipher_round_trip (plainText : String) :
    decryptData (encryptData plainText) = plainText := by
  unfold encryptData decryptData
  have hmap : ∀ l : List Char, (l.map encChar).map decChar = l := by
    intro l
    induction l with
    | nil => rfl
    | cons c cs ih => simp [List.map_cons, decChar_encChar, ih]
  cases plainText with
  | mk data => exact congrArg String.mk (by simpa using hmap data)

/-! ## C9 and C10: the dual-backend store -/

/-- C9: with both backends available and an allow-list permitting both,
`storeData` writes a non-empty value through to both the durable store and
the cookie jar, so a later `readData` recovers it when either backend alone
is permitted; `defineStorageType` drops unrecognized entries, and an
allow-list with no recognized entry defaults to the durable backend only. -/
theorem c9_write_through (st : StorageState) (key v : String)
    (allowed params junk : List String)
    (hls : st.hasLS = true) (hck : st.cookiesOn = true)
    (h5 : allowed.contains "html5" = true)
    (hcook : allowed.contains "cookie" = true)
    (hv : v ≠ "")
    (hjunk : junk.all (fun x => !(SUPPORTED_TYPES.contains x)) = true) :
    ((storeData key (some v) allowed st).ls key = some v ∧
      (storeData key (some v) allowed st).cookies key = some v) ∧
    readData key ["html5"] (storeData key (some v) allowed st) = some v ∧
    readData key ["cookie"] (storeData key (some v) allowed st) = some v ∧
    (defineStorageType (some params)).all
      (fun x => SUPPORTED_TYPES.contains x) = true ∧
    defineStorageType (some junk) = ["html5"] := by
  have htv : jsTruthyStrOpt (some v) = true := by
    simp [jsTruthyStrOpt, hv]
  have h5m : "html5" ∈ allowed := by simpa using h5
  have hcm : "cookie" ∈ allowed := by simpa using hcook
  refine ⟨⟨?_, ?_⟩, ?_, ?_, ?_, ?_⟩
  · simp [storeData, htv, hls, hck, h5m, hcm]
  · simp [storeData, htv, hls, hck, h5m, hcm]
  · simp [storeData, readData, htv, hls, hck, h5m, hcm]
  · simp [storeData, readData, htv, hls, hck, h5m, hcm]
  · simp only [defineStorageType]
    split
    · decide
    · rw [List.all_eq_true]
      intro x hx
      exact (List.mem_filter.mp hx).2
  · simp only [defineStorageType]
    have hnil : junk.filter (fun item => SUPPORTED_TYPES.contains item) = [] := by
      rw [List.filter_eq_nil_iff]
      intro a ha
      have := List.all_eq_true.mp hjunk a ha
      simpa using this
    rw [hnil]
    rfl

/-- C9 witness: key "k", value "v", allow-list permitting both backends,
on empty available backends; plus concrete allow-list facts. -/
theorem c9_witness :
    ((storeData "k" (some "v") ["html5", "cookie"]
        ⟨true, true, fun _ => none, fun _ => none⟩).ls "k" = some "v" ∧
      (storeData "k" (some "v") ["html5", "cookie"]
        ⟨true, true, fun _ => none, fun _ => none⟩).cookies "k" = some "v") ∧
    readData "k" ["html5"] (storeData "k" (some "v") ["html5", "cookie"]
      ⟨true, true, fun _ => none, fun _ => none⟩) = some "v" ∧
    readData "k" ["cookie"] (storeData "k" (some "v") ["html5", "cookie"]
      ⟨true, true, fun _ => none, fun _ => none⟩) = some "v" ∧
    (defineStorageType (some ["cookie", "bogus", "html5"])).all
      (fun x => SUPPORTED_TYPES.contains x) = true ∧
    defineStorageType (some ["bogus", "weird"]) = ["html5"] :=
  c9_write_through ⟨true, true, fun _ => none, fun _ => none⟩ "k" "v"
    ["html5", "cookie"] ["cookie", "bogus", "html5"] ["bogus", "weird"]
    rfl rfl (by decide) (by decide) (by decide) (by decide)

/-- C10: `storeData` with a falsy value (undefined, null or the empty
string) leaves the whole storage state unchanged — neither backend is
written, nothing is blanked or deleted. -/
theorem c10_falsy_store_noop (key : String) (allowed : List String)
    (st : StorageState) (v : Option String)
    (hv : v = none ∨ v = some "") :
    storeData key v allowed st = st := by
  rcases hv with h | h <;> subst h <;> rfl

/-- C10 witness: storing `undefined` under "k" leaves a concrete storage
state untouched. -/
theorem c10_witness :
    storeData "k" none ["html5", "cookie"]
      ⟨true, true, fun _ => none, fun _ => none⟩ =
      ⟨true, true, fun _ => none, fun _ => none⟩ :=
  c10_falsy_store_noop "k" ["html5", "cookie"]
    ⟨true, true, fun _ => none, fun _ => none⟩ none (Or.inl rfl)

theorem cbOnce_firePartnerCallback (hasCb : Bool) {st : MState} (h : CbOnce st) :
    CbOnce (firePartnerCallback hasCb st) := by
  unfold firePartnerCallback
  split
  · rename_i hcond
    obtain ⟨h1, h2⟩ := h
    constructor
    · simp only [List.length_append, h2 hcond.2]
      simp
    · intro hfalse
      simp at hfalse
  · exact h

theorem cbOnce_timerFire (hasCb : Bool) {st : MState} (h : CbOnce st) :
    CbOnce (timerFire hasCb st) := by
  unfold timerFire
  split
  · exact cbOnce_firePartnerCallback hasCb h
  · exact h

theorem cbOnce_storeFirstPartyData (f : FirstPartyData) {st : MState}
    (h : CbOnce st) : CbOnce (storeFirstPartyData f st) := h

theorem cbOnce_defineEmptyDataAndFireCallback (hasCb : Bool) (f : FirstPartyData)
    {st : MState} (h : CbOnce st) : CbOnce (defineEmptyDataAndFireCallback hasCb f st) := by
  unfold defineEmptyDataAndFireCallback
  exact cbOnce_firePartnerCallback hasCb (h : CbOnce _)

theorem cbOnce_applyCt (respJson : RespJson) {st : MState} (h : CbOnce st) :
    CbOnce (applyCt respJson st) := by
  unfold applyCt
  split
  · exact (h : CbOnce _)
  · exact h

theorem cbOnce_applySid (respJson : RespJson) {st : MState} (h : CbOnce st) :
    CbOnce (applySid respJson st) := by
  unfold applySid
  split
  · exact (h : CbOnce _)
  · exact h

theorem cbOnce_applyRrtt (now : Int) {st : MState} (h : CbOnce st) :
    CbOnce (applyRrtt now st) := by
  unfold applyRrtt
  split
  · exact (h : CbOnce _)
  · exact h

theorem cbOnce_afterLs (hasCb : Bool) (now : Int) (respJson : RespJson)
    (d : Option RespData) (f : FirstPartyData) {st : MState} (h : CbOnce st) :
    CbOnce (afterLs hasCb now respJson d f st) := by
  have hC : CbOnce (applyRrtt now (applySid respJson (applyCt respJson st))) :=
    cbOnce_applyRrtt now (cbOnce_applySid respJson (cbOnce_applyCt respJson h))
  unfold afterLs
  split <;>
    exact cbOnce_storeFirstPartyData f (cbOnce_firePartnerCallback hasCb (hC : CbOnce _))

theorem cbOnce_afterOptOut (hasCb : Bool) (now : Int) (respJson : RespJson)
    (f : FirstPartyData) {st : MState} (h : CbOnce st) :
    CbOnce (afterOptOut hasCb now respJson f st) := by
  unfold afterOptOut
  split
  · split
    · exact cbOnce_defineEmptyDataAndFireCallback hasCb _ (h : CbOnce _)
    · exact cbOnce_afterLs hasCb now respJson _ _ (h : CbOnce _)
    · exact cbOnce_afterLs hasCb now respJson _ _ (h : CbOnce _)
  · split
    · exact cbOnce_defineEmptyDataAndFireCallback hasCb _ (h : CbOnce _)
    · exact cbOnce_afterLs hasCb now respJson _ _ (h : CbOnce _)
    · exact cbOnce_afterLs hasCb now respJson _ _ (h : CbOnce _)

theorem cbOnce_afterTc (hasCb : Bool) (now : Int) (respJson : RespJson)
    (f : FirstPartyData) {st : MState} (h : CbOnce st) :
    CbOnce (afterTc hasCb now respJson f st) := by
  unfold afterTc
  split
  · split
    · exact cbOnce_defineEmptyDataAndFireCallback hasCb _ (h : CbOnce _)
    · exact cbOnce_afterOptOut hasCb now respJson _ (h : CbOnce _)
  · exact cbOnce_afterOptOut hasCb now respJson _ h

theorem cbOnce_applyValidResponse (hasCb : Bool) (now : Int)
    (respJson : RespJson) (f0 : FirstPartyData) {st : MState} (h : CbOnce st) :
    CbOnce (applyValidResponse hasCb now respJson f0 st) := by
  unfold applyValidResponse
  split
  · split
    · exact cbOnce_defineEmptyDataAndFireCallback hasCb _ (h : CbOnce _)
    · exact cbOnce_afterTc hasCb now respJson _ (h : CbOnce _)
  · exact cbOnce_afterTc hasCb now respJson _ (h : CbOnce _)

theorem cbOnce_applyResponse (hasCb : Bool) (now : Int)
    (resp : Option RespJson) {st : MState} (h : CbOnce st) :
    CbOnce (applyResponse hasCb now resp st) := by
  unfold applyResponse
  split
  · exact cbOnce_firePartnerCallback hasCb (h : CbOnce _)
  · split
    · exact h
    · exact cbOnce_applyValidResponse hasCb now _ _ h

theorem cbOnce_stepEv (hasCb : Bool) (e : Ev) {st : MState} (h : CbOnce st) :
    CbOnce (stepEv hasCb e st) := by
  cases e with
  | timer => exact cbOnce_timerFire hasCb h
  | invoke n => exact (h : CbOnce _)
  | response n r => exact cbOnce_applyResponse hasCb n r h
  | netError => exact (h : CbOnce _)

theorem cbOnce_runEvs (hasCb : Bool) (evs : List Ev) {st : MState}
    (h : CbOnce st) : CbOnce (runEvs hasCb evs st) := by
  induction evs generalizing st with
  | nil => exact h
  | cons e evs ih =>
    exact ih (cbOnce_stepEv hasCb e h)

theorem cbOnce_invalidPhase (hasCb : Bool) (env : Env) (f : FirstPartyData)
    {st : MState} (h : CbOnce st) : CbOnce (invalidPhase hasCb env f st).2 := by
  unfold invalidPhase
  split
  · exact (h : CbOnce _)
  · split
    · exact cbOnce_firePartnerCallback hasCb h
    · exact h

theorem cbOnce_groupFirePhase (hasCb : Bool) (f : FirstPartyData)
    {st : MState} (h : CbOnce st) : CbOnce (groupFirePhase hasCb f st) := by
  unfold groupFirePhase
  split
  · exact cbOnce_firePartnerCallback hasCb h
  · exact h

theorem cbOnce_finishPhase (hasCb : Bool) {st : MState} (h : CbOnce st) :
    CbOnce (finishPhase hasCb st).2 := by
  unfold finishPhase
  split
  · split
    · exact cbOnce_firePartnerCallback hasCb (h : CbOnce _)
    · exact cbOnce_firePartnerCallback hasCb h
  · exact h

theorem cbOnce_ensurePhase (env : Env) {st : MState} (h : CbOnce st) :
    CbOnce (ensurePhase env st).2 := by
  unfold ensurePhase
  split
  · split
    · split
      · exact (h : CbOnce _)
      · exact h
    · exact (h : CbOnce _)
  · exact (h : CbOnce _)

theorem cbOnce_loadPartnerPhase {st : MState} (h : CbOnce st) :
    CbOnce (loadPartnerPhase st) := by
  unfold loadPartnerPhase
  split
  · split
    · exact (h : CbOnce _)
    · exact (h : CbOnce _)
  · exact h

theorem cbOnce_decryptPhase {st : MState} (h : CbOnce st) :
    CbOnce (decryptPhase st) := by
  unfold decryptPhase
  split
  · split
    · exact (h : CbOnce _)
    · exact h
  · exact h

theorem cbOnce_getId (cfg : ConfigParams) (env : Env) (store : Stored)
    (hbl : blacklistHit cfg env = false) :
    CbOnce (getId cfg env store).2 := by
  have hinit : CbOnce (initState store) := by
    constructor <;> simp [initState]
  unfold getId
  split
  · exact cbOnce_firePartnerCallback cfg.callback hinit
  · rw [if_neg (by simp [hbl])]
    exact cbOnce_finishPhase cfg.callback
      (cbOnce_groupFirePhase cfg.callback _
        (cbOnce_invalidPhase cfg.callback env _
          (cbOnce_decryptPhase
            (cbOnce_loadPartnerPhase
              (cbOnce_ensurePhase env hinit)))))

/-! ## Projection lemmas

Small facts about which fields each phase leaves untouched; used to push
claims through the pipeline. -/

theorem firePartnerCallback_fp (h : Bool) (st : MState) : (firePartnerCallback h st).fp = st.fp := by
  unfold firePartnerCallback; split <;> rfl

theorem firePartnerCallback_pd (h : Bool) (st : MState) : (firePartnerCallback h st).pd = st.pd := by
  unfold firePartnerCallback; split <;> rfl

theorem firePartnerCallback_storeFp (h : Bool) (st : MState) : (firePartnerCallback h st).storeFp = st.storeFp := by
  unfold firePartnerCallback; split <;> rfl

theorem firePartnerCallback_storePd (h : Bool) (st : MState) : (firePartnerCallback h st).storePd = st.storePd := by
  unfold firePartnerCallback; split <;> rfl

theorem firePartnerCallback_shouldCallServer (h : Bool) (st : MState) :
    (firePartnerCallback h st).shouldCallServer = st.shouldCallServer := by
  unfold firePartnerCallback; split <;> rfl

theorem firePartnerCallback_requests (h : Bool) (st : MState) : (firePartnerCallback h st).requests = st.requests := by
  unfold firePartnerCallback; split <;> rfl

theorem firePartnerCallback_isGroupB (h : Bool) (st : MState) : (firePartnerCallback h st).isGroupB = st.isGroupB := by
  unfold firePartnerCallback; split <;> rfl

theorem loadPartnerPhase_fp (st : MState) : (loadPartnerPhase st).fp = st.fp := by
  unfold loadPartnerPhase; split
  · split <;> rfl
  · rfl

theorem loadPartnerPhase_storeFp (st : MState) :
    (loadPartnerPhase st).storeFp = st.storeFp := by
  unfold loadPartnerPhase; split
  · split <;> rfl
  · rfl

theorem loadPartnerPhase_misc (st : MState) :
    (loadPartnerPhase st).runtimeEids = st.runtimeEids ∧
    (loadPartnerPhase st).callbackFired = st.callbackFired ∧
    (loadPartnerPhase st).timerArmed = st.timerArmed ∧
    (loadPartnerPhase st).isGroupB = st.isGroupB ∧
    (loadPartnerPhase st).shouldCallServer = st.shouldCallServer ∧
    (loadPartnerPhase st).requests = st.requests ∧
    (loadPartnerPhase st).calls = st.calls := by
  unfold loadPartnerPhase; split
  · split <;> exact ⟨rfl, rfl, rfl, rfl, rfl, rfl, rfl⟩
  · exact ⟨rfl, rfl, rfl, rfl, rfl, rfl, rfl⟩

theorem decryptPhase_misc (st : MState) :
    (decryptPhase st).fp = st.fp ∧
    (decryptPhase st).storeFp = st.storeFp ∧
    (decryptPhase st).storePd = st.storePd ∧
    (decryptPhase st).pd = st.pd ∧
    (decryptPhase st).callbackFired = st.callbackFired ∧
    (decryptPhase st).timerArmed = st.timerArmed ∧
    (decryptPhase st).isGroupB = st.isGroupB ∧
    (decryptPhase st).shouldCallServer = st.shouldCallServer ∧
    (decryptPhase st).requests = st.requests ∧
    (decryptPhase st).calls = st.calls := by
  unfold decryptPhase; split
  · split <;> exact ⟨rfl, rfl, rfl, rfl, rfl, rfl, rfl, rfl, rfl, rfl⟩
  · exact ⟨rfl, rfl, rfl, rfl, rfl, rfl, rfl, rfl, rfl, rfl⟩

theorem ensurePhase_of_pcid (env : Env) (st : MState) (f : FirstPartyData)
    (hfp : st.fp = some f) (h1 : jsTruthyStrOpt f.pcid = true)
    (h2 : jsFalsyOptInt f.pcidDate = false) :
    ensurePhase env st = (f, st) := by
  unfold ensurePhase
  rw [hfp]
  simp [h1, h2]

theorem invalidPhase_shouldCallServer (h : Bool) (env : Env)
    (f : FirstPartyData) (st : MState) :
    (invalidPhase h env f st).2.shouldCallServer =
      (cacheInvalid f env || st.shouldCallServer) := by
  unfold invalidPhase
  split
  · rename_i hc; simp [hc]
  · rename_i hc
    rw [Bool.not_eq_true] at hc
    split
    · simp [hc, firePartnerCallback_shouldCallServer]
    · simp [hc]

theorem invalidPhase_requests (h : Bool) (env : Env)
    (f : FirstPartyData) (st : MState) :
    (invalidPhase h env f st).2.requests = st.requests := by
  unfold invalidPhase
  split
  · rfl
  · split
    · exact firePartnerCallback_requests h st
    · rfl

theorem invalidPhase_invalid (h : Bool) (env : Env)
    (f : FirstPartyData) (st : MState) (hc : cacheInvalid f env = true) :
    invalidPhase h env f st =
      ({ f with
          uspapi_value := cmpUsPrivacy env
          gpp_string_value := some env.gppString
          isOptedOut := some false
          cttl := some 0 },
        { st with
          fp := some { f with
            uspapi_value := cmpUsPrivacy env
            gpp_string_value := some env.gppString
            isOptedOut := some false
            cttl := some 0 }
          pd := { st.pd with data := DataAtRest.emptyObj, eidl := some (-1) }
          shouldCallServer := true
          storeFp := some { f with
            uspapi_value := cmpUsPrivacy env
            gpp_string_value := some env.gppString
            isOptedOut := some false
            cttl := some 0 }
          storePd := some { st.pd with data := DataAtRest.emptyObj, eidl := some (-1) } }) := by
  unfold invalidPhase
  rw [if_pos hc]

theorem invalidPhase_valid_opted (h : Bool) (env : Env)
    (f : FirstPartyData) (st : MState) (hc : cacheInvalid f env = false)
    (ho : f.isOptedOut = some true) :
    invalidPhase h env f st = (f, firePartnerCallback h st) := by
  unfold invalidPhase
  rw [if_neg (by simp [hc]), if_pos ho]

theorem invalidPhase_valid_notOpted (h : Bool) (env : Env)
    (f : FirstPartyData) (st : MState) (hc : cacheInvalid f env = false)
    (ho : f.isOptedOut ≠ some true) :
    invalidPhase h env f st = (f, st) := by
  unfold invalidPhase
  rw [if_neg (by simp [hc]), if_neg ho]

theorem groupFirePhase_misc (h : Bool) (f : FirstPartyData) (st : MState) :
    (groupFirePhase h f st).fp = st.fp ∧
    (groupFirePhase h f st).pd = st.pd ∧
    (groupFirePhase h f st).storeFp = st.storeFp ∧
    (groupFirePhase h f st).storePd = st.storePd ∧
    (groupFirePhase h f st).shouldCallServer = st.shouldCallServer ∧
    (groupFirePhase h f st).requests = st.requests ∧
    (groupFirePhase h f st).isGroupB = st.isGroupB := by
  unfold groupFirePhase
  split
  · exact ⟨firePartnerCallback_fp h st, firePartnerCallback_pd h st, firePartnerCallback_storeFp h st, firePartnerCallback_storePd h st,
      firePartnerCallback_shouldCallServer h st, firePartnerCallback_requests h st, firePartnerCallback_isGroupB h st⟩
  · exact ⟨rfl, rfl, rfl, rfl, rfl, rfl, rfl⟩

theorem finishPhase_deferred (h : Bool) (st : MState)
    (hs : st.shouldCallServer = true) :
    finishPhase h st = (GetIdResult.deferredResp (deferredId st), st) := by
  unfold finishPhase
  rw [if_neg (by simp [hs])]

theorem finishPhase_sync (h : Bool) (st : MState)
    (hs : st.shouldCallServer = false) :
    finishPhase h st =
      (syncReturn (firePartnerCallback h (if st.isGroupB then
          { st with runtimeEids := some (RuntimeVal.eidsObj []) } else st)),
        firePartnerCallback h (if st.isGroupB then
          { st with runtimeEids := some (RuntimeVal.eidsObj []) } else st)) := by
  unfold finishPhase
  rw [if_pos hs]

theorem finishPhase_shouldCallServer (h : Bool) (st : MState) :
    (finishPhase h st).2.shouldCallServer = st.shouldCallServer := by
  unfold finishPhase
  split
  · split <;> simp [firePartnerCallback_shouldCallServer]
  · rfl

theorem finishPhase_requests (h : Bool) (st : MState) :
    (finishPhase h st).2.requests = st.requests := by
  unfold finishPhase
  split
  · split <;> simp [firePartnerCallback_requests]
  · rfl

theorem finishPhase_storeFp (h : Bool) (st : MState) :
    (finishPhase h st).2.storeFp = st.storeFp := by
  unfold finishPhase
  split
  · split <;> simp [firePartnerCallback_storeFp]
  · rfl

theorem finishPhase_storePd (h : Bool) (st : MState) :
    (finishPhase h st).2.storePd = st.storePd := by
  unfold finishPhase
  split
  · split <;> simp [firePartnerCallback_storePd]
  · rfl

theorem finishPhase_pd (h : Bool) (st : MState) :
    (finishPhase h st).2.pd = st.pd := by
  unfold finishPhase
  split
  · split <;> simp [firePartnerCallback_pd]
  · rfl

/-- The cache-invalid predicate, spelt out: `cttl` falsy, elapsed time
exceeding `cttl`, or consent drift in either stored signal. -/
theorem cacheInvalid_iff (f : FirstPartyData) (env : Env) :
    cacheInvalid f env = true ↔
      (f.cttl = none ∨ f.cttl = some 0 ∨
        (∃ d c, f.date = some d ∧ f.cttl = some c ∧ env.now - d > c) ∨
        f.uspapi_value ≠ cmpUsPrivacy env ∨
        f.gpp_string_value ≠ some env.gppString) := by
  unfold cacheInvalid jsFalsyOptInt
  cases hc : f.cttl with
  | none => simp [hc]
  | some c =>
    cases hd : f.date with
    | none =>
      simp [hc, hd]
      tauto
    | some d =>
      simp [hc, hd]
      tauto

/-! ## C2: cache invalidation -/

/-- C2: with a partner-keyed call that passes the guards and a stored
first-party record carrying a `pcid` and a `pcidDate`, the call marks a
server round trip exactly when `cttl` is falsy, or the elapsed time since
`date` exceeds `cttl`, or either stored consent signal differs from the
currently observed one; and whenever it is invalid, the call persists the
first-party record with `cttl = 0`, `isOptedOut` cleared and the refreshed
consent snapshot, and persists the partner record with `data = {}` and
`eidl = -1`. -/
theorem c2_cache_invalidation (cfg : ConfigParams) (env : Env) (store : Stored)
    (f : FirstPartyData) (n : Int)
    (hfp : store.fp = some f) (hpcid : jsTruthyStrOpt f.pcid = true)
    (hpd : jsFalsyOptInt f.pcidDate = false)
    (hp : cfg.partner = some n) (hbl : blacklistHit cfg env = false) :
    ((getId cfg env store).2.shouldCallServer = true ↔
      (f.cttl = none ∨ f.cttl = some 0 ∨
        (∃ d c, f.date = some d ∧ f.cttl = some c ∧ env.now - d > c) ∨
        f.uspapi_value ≠ cmpUsPrivacy env ∨
        f.gpp_string_value ≠ some env.gppString)) ∧
    ((f.cttl = none ∨ f.cttl = some 0 ∨
        (∃ d c, f.date = some d ∧ f.cttl = some c ∧ env.now - d > c) ∨
        f.uspapi_value ≠ cmpUsPrivacy env ∨
        f.gpp_string_value ≠ some env.gppString) →
      (getId cfg env store).2.storeFp =
        some { f with
          uspapi_value := cmpUsPrivacy env
          gpp_string_value := some env.gppString
          isOptedOut := some false
          cttl := some 0 } ∧
      (∃ pd0 : PartnerData,
        (getId cfg env store).2.storePd = some pd0 ∧
        pd0.data = DataAtRest.emptyObj ∧ pd0.eidl = some (-1) ∧
        (getId cfg env store).2.pd = pd0)) := by
  have hrun : getId cfg env store =
      finishPhase cfg.callback (groupFirePhase cfg.callback
        (invalidPhase cfg.callback env f
          (decryptPhase (loadPartnerPhase (initState store)))).1
        (invalidPhase cfg.callback env f
          (decryptPhase (loadPartnerPhase (initState store)))).2) := by
    unfold getId
    rw [if_neg (by simp [hp]), if_neg (by simp [hbl]),
      ensurePhase_of_pcid env (initState store) f (by simpa [initState] using hfp) hpcid hpd]
  rw [hrun]
  have hscsD : (decryptPhase (loadPartnerPhase (initState store))).shouldCallServer = false := by
    rw [(decryptPhase_misc _).2.2.2.2.2.2.2.1, (loadPartnerPhase_misc _).2.2.2.2.1]
    rfl
  have hscs : (finishPhase cfg.callback (groupFirePhase cfg.callback
      (invalidPhase cfg.callback env f
        (decryptPhase (loadPartnerPhase (initState store)))).1
      (invalidPhase cfg.callback env f
        (decryptPhase (loadPartnerPhase (initState store)))).2)).2.shouldCallServer =
      cacheInvalid f env := by
    rw [finishPhase_shouldCallServer, (groupFirePhase_misc _ _ _).2.2.2.2.1,
      invalidPhase_shouldCallServer, hscsD]
    simp
  constructor
  · rw [hscs]
    exact cacheInvalid_iff f env
  · intro hinv
    have hc : cacheInvalid f env = true := (cacheInvalid_iff f env).mpr hinv
    rw [invalidPhase_invalid cfg.callback env f _ hc]
    refine ⟨?_, ⟨{ (decryptPhase (loadPartnerPhase (initState store))).pd with
        data := DataAtRest.emptyObj, eidl := some (-1) }, ?_, rfl, rfl, ?_⟩⟩
    · rw [finishPhase_storeFp, (groupFirePhase_misc _ _ _).2.2.1]
    · rw [finishPhase_storePd, (groupFirePhase_misc _ _ _).2.2.2.1]
    · rw [finishPhase_pd, (groupFirePhase_misc _ _ _).2.1]

/-- C2 witness: a concrete expired cache (cttl 1000, 5000 ms elapsed at
now = 10000) is invalid, so the round trip is marked. -/
theorem c2_witness :
    (getId { partner := some 3, callback := true }
      { now := 10000, uspData := some "u", gppString := "g" }
      { fp := some { pcid := some "p", pcidDate := some 1, cttl := some 1000, date := some 5000, uspapi_value := some "u", gpp_string_value := some "g" } }).2.shouldCallServer = true := by
  have h := c2_cache_invalidation { partner := some 3, callback := true }
    { now := 10000, uspData := some "u", gppString := "g" }
    { fp := some { pcid := some "p", pcidDate := some 1, cttl := some 1000, date := some 5000, uspapi_value := some "u", gpp_string_value := some "g" } }
    { pcid := some "p", pcidDate := some 1, cttl := some 1000, date := some 5000, uspapi_value := some "u", gpp_string_value := some "g" }
    3 rfl (by decide) (by decide) rfl (by decide)
  exact h.1.mpr (Or.inr (Or.inr (Or.inl ⟨5000, 1000, rfl, rfl, by norm_num⟩)))

/-! ## C4: non-numeric partner -/

/-- C4: for every partner configuration whose partner id is not a number,
`getId` synchronously invokes the completion callback at most once, with
the empty identity, issues zero network requests, and returns `undefined`
(no deferred handle). -/
theorem c4_non_numeric_partner (cfg : ConfigParams) (env : Env) (store : Stored)
    (hp : cfg.partner = none) :
    (getId cfg env store).1 = GetIdResult.undef ∧
    (getId cfg env store).2.requests = 0 ∧
    (getId cfg env store).2.calls =
      (if cfg.callback then
        [Delivered.identity (some (RuntimeVal.eidsObj [])) (groupLabel store.fp)]
      else []) := by
  unfold getId
  rw [if_pos hp]
  refine ⟨rfl, ?_, ?_⟩
  · rw [firePartnerCallback_requests]
    rfl
  · unfold firePartnerCallback
    cases hcb : cfg.callback with
    | false => simp [initState]
    | true =>
      rw [if_pos ⟨rfl, rfl⟩]
      simp [initState, groupLabel]

/-- C4 witness: a config with no numeric partner and a callback delivers
exactly one empty identity, no requests, and returns undefined. -/
theorem c4_witness :
    (getId { callback := true } {} {}).1 = GetIdResult.undef ∧
    (getId { callback := true } {} {}).2.requests = 0 ∧
    (getId { callback := true } {} {}).2.calls =
      (if ({ callback := true } : ConfigParams).callback then
        [Delivered.identity (some (RuntimeVal.eidsObj []))
          (groupLabel ({} : Stored).fp)]
      else []) :=
  c4_non_numeric_partner { callback := true } {} {} rfl

/-! ## C1: at-most-once delivery -/

/-- C1 (counterexample): on the browser-blacklist short-circuit the partner
callback is invoked directly, without the `callbackFired` guard and without
clearing the armed timeout, so the later timer firing delivers a second
time: with partner 7, a callback configured, blacklist "Chrome" and browser
"chrome", the blacklist short-circuit delivers once and the timer delivers
again — two invocations for one resolution call. -/
theorem c1_counterexample :
    (runEvs true [Ev.timer]
      (getId { partner := some 7, callback := true, browserBlackList := some "Chrome" }
        { currentBrowser := "chrome" } {}).2).calls =
      [Delivered.blacklisted,
        Delivered.identity (some (RuntimeVal.eidsObj [])) Group.NOT_YET_DEFINED] := by
  decide

/-- C1 (amended): for every resolution call whose browser is not caught by
the blacklist short-circuit, the partner-supplied completion callback is
invoked at most once across the synchronous call and any sequence of
subsequent events (timeout firing, deferred-handle invocation, network
response, transport error); delivery through `firePartnerCallback` sets the
once-guard and disarms the timer, so whichever of timer and response fires
first suppresses the other. On the blacklist short-circuit the callback is
invoked directly without the guard, and the timer can deliver a second
time. -/
theorem c1_callback_at_most_once (cfg : ConfigParams) (env : Env)
    (store : Stored) (evs : List Ev)
    (hbl : blacklistHit cfg env = false) :
    (runEvs cfg.callback evs (getId cfg env store).2).calls.length ≤ 1 :=
  (cbOnce_runEvs cfg.callback evs (cbOnce_getId cfg env store hbl)).1

/-- C1 witness: a concrete run — partner 7, callback configured, timer
fires first and then a `tc: 41` response arrives — delivers at most once. -/
theorem c1_witness :
    (runEvs true [Ev.timer, Ev.response 2000 (some { tc := some 41 })]
      (getId { partner := some 7, callback := true } { now := 0 } {}).2).calls.length ≤ 1 :=
  c1_callback_at_most_once
    { partner := some 7, callback := true } { now := 0 } {} _ (by decide)

/-! ## C7: bare-string response data -/

theorem afterLs_eids (now : Int) (r : RespJson) (f : FirstPartyData)
    (st : MState) (l : List String)
    (hgb : st.isGroupB = false) (hnf : st.callbackFired = false) :
    (afterLs true now r (some (RespData.eidsObj l)) f st).runtimeEids
        = some (RuntimeVal.eidsObj l) ∧
    (afterLs true now r (some (RespData.eidsObj l)) f st).pd.data
        = DataAtRest.str (encryptData (jsonStringifyIdentity l)) ∧
    (afterLs true now r (some (RespData.eidsObj l)) f st).storePd
        = some (afterLs true now r (some (RespData.eidsObj l)) f st).pd ∧
    (afterLs true now r (some (RespData.eidsObj l)) f st).prebidCalls
        = st.prebidCalls ++ [PrebidArg.eidsArg l] ∧
    (afterLs true now r (some (RespData.eidsObj l)) f st).calls
        = st.calls ++ [Delivered.identity (some (RuntimeVal.eidsObj l)) (groupLabel st.fp)] := by
  unfold afterLs applyRrtt applySid applyCt storeFirstPartyData firePartnerCallback
  rcases hct : r.ct with _ | c <;> rcases hsid : r.sid with _ | sd <;>
    split_ifs <;> simp_all

theorem afterOptOut_bare (now : Int) (r : RespJson) (f : FirstPartyData)
    (st : MState) (s : String)
    (hls : r.ls = some true) (hdata : r.data = some (RespData.str s)) (hs : s ≠ "")
    (hgb : st.isGroupB = false) (hnf : st.callbackFired = false) :
    (afterOptOut true now r f st).runtimeEids = some (RuntimeVal.eidsObj [s]) ∧
    (afterOptOut true now r f st).pd.data
        = DataAtRest.str (encryptData (jsonStringifyIdentity [s])) ∧
    (afterOptOut true now r f st).storePd = some (afterOptOut true now r f st).pd ∧
    (afterOptOut true now r f st).prebidCalls
        = st.prebidCalls ++ [PrebidArg.eidsArg [s]] ∧
    (∃ g, (afterOptOut true now r f st).calls
        = st.calls ++ [Delivered.identity (some (RuntimeVal.eidsObj [s])) g]) := by
  have hd : rewriteRespData r.data = some (RespData.eidsObj [s]) := by
    simp [rewriteRespData, hdata, hs]
  unfold afterOptOut
  rw [hls]
  rcases hpid : r.pid with _ | p
  · rw [hd]
    have h := afterLs_eids now r f
      { st with
        fp := some f
        pd := { st.pd with data := toRest (some (RespData.eidsObj [s])) } }
      [s] hgb hnf
    exact ⟨h.1, h.2.1, h.2.2.1, h.2.2.2.1, ⟨groupLabel (some f), h.2.2.2.2⟩⟩
  · rw [hd]
    have h := afterLs_eids now r { f with pid := some p }
      { st with
        fp := some { f with pid := some p }
        pd := { st.pd with data := toRest (some (RespData.eidsObj [s])) } }
      [s] hgb hnf
    exact ⟨h.1, h.2.1, h.2.2.1, h.2.2.2.1,
      ⟨groupLabel (some { f with pid := some p }), h.2.2.2.2⟩⟩

theorem afterTc_bare (now : Int) (r : RespJson) (f : FirstPartyData)
    (st : MState) (s : String)
    (hls : r.ls = some true) (hoo : r.isOptedOut ≠ some true)
    (hdata : r.data = some (RespData.str s)) (hs : s ≠ "")
    (hgb : st.isGroupB = false) (hnf : st.callbackFired = false) :
    (afterTc true now r f st).runtimeEids = some (RuntimeVal.eidsObj [s]) ∧
    (afterTc true now r f st).pd.data
        = DataAtRest.str (encryptData (jsonStringifyIdentity [s])) ∧
    (afterTc true now r f st).storePd = some (afterTc true now r f st).pd ∧
    (afterTc true now r f st).prebidCalls
        = st.prebidCalls ++ [PrebidArg.eidsArg [s]] ∧
    (∃ g, (afterTc true now r f st).calls
        = st.calls ++ [Delivered.identity (some (RuntimeVal.eidsObj [s])) g]) := by
  rcases hioo : r.isOptedOut with _ | b
  · have he : afterTc true now r f st = afterOptOut true now r f st := by
      unfold afterTc
      rw [hioo]
    rw [he]
    exact afterOptOut_bare now r f st s hls hdata hs hgb hnf
  · cases b with
    | true => exact absurd hioo hoo
    | false =>
      have he : afterTc true now r f st =
          afterOptOut true now r { f with isOptedOut := some false }
            { st with fp := some { f with isOptedOut := some false } } := by
        unfold afterTc
        rw [hioo]
        dsimp only
        rw [if_neg (by decide : ¬ (false = true))]
      rw [he]
      exact afterOptOut_bare now r { f with isOptedOut := some false }
        { st with fp := some { f with isOptedOut := some false } } s hls hdata hs hgb hnf

/-- C7 (amended): for every server response that carries an `ls` field not
equal to false, no hard-opt-out termination cause (`tc` absent or ≠ 41) and
no `isOptedOut: true`, whose `data` field is a bare non-empty string `s`,
and whose call context has a not-yet-fired callback and a cohort other than
`WITHOUT_IIQ`, applying the response makes the resolved identity
`\x7beids: [s]\x7d`, delivers it to the framework caller and (once) to the
partner callback, and persists it ciphertext-encoded in the partner
record. Without an `ls` field the response's bare-string `data` is ignored
(see the counterexample). -/
theorem c7_bare_string_response (now : Int) (r : RespJson) (f : FirstPartyData)
    (st : MState) (s : String)
    (hfp : st.fp = some f)
    (hls : r.ls = some true)
    (htc : ∀ t, r.tc = some t → t ≠ 41)
    (hoo : r.isOptedOut ≠ some true)
    (hdata : r.data = some (RespData.str s)) (hs : s ≠ "")
    (hgb : st.isGroupB = false) (hnf : st.callbackFired = false) :
    (applyResponse true now (some r) st).runtimeEids
        = some (RuntimeVal.eidsObj [s]) ∧
    (applyResponse true now (some r) st).pd.data
        = DataAtRest.str (encryptData (jsonStringifyIdentity [s])) ∧
    (applyResponse true now (some r) st).storePd
        = some (applyResponse true now (some r) st).pd ∧
    (applyResponse true now (some r) st).prebidCalls
        = st.prebidCalls ++ [PrebidArg.eidsArg [s]] ∧
    (∃ g, (applyResponse true now (some r) st).calls
        = st.calls ++ [Delivered.identity (some (RuntimeVal.eidsObj [s])) g]) := by
  have h0 : applyResponse true now (some r) st = applyValidResponse true now r f st := by
    unfold applyResponse
    rw [hfp]
  rw [h0]
  unfold applyValidResponse
  rcases hts : r.tc with _ | t
  · dsimp only
    exact afterTc_bare now r _ _ s hls hoo hdata hs hgb hnf
  · dsimp only
    rw [if_neg (htc t hts)]
    exact afterTc_bare now r _ _ s hls hoo hdata hs hgb hnf

/-- C7 witness: the response `\x7bls: true, data: "abc123"\x7d` applied to a
fresh mid-flight context wraps the bare string, delivers it, and persists
the encrypted `\x7beids: ["abc123"]\x7d`. -/
theorem c7_witness :
    (applyResponse true 2000
      (some { ls := some true, data := some (RespData.str "abc123") })
      { timerArmed := true, fp := some { pcid := some "p" } }).runtimeEids
        = some (RuntimeVal.eidsObj ["abc123"]) ∧
    (applyResponse true 2000
      (some { ls := some true, data := some (RespData.str "abc123") })
      { timerArmed := true, fp := some { pcid := some "p" } }).pd.data
        = DataAtRest.str (encryptData (jsonStringifyIdentity ["abc123"])) ∧
    (applyResponse true 2000
      (some { ls := some true, data := some (RespData.str "abc123") })
      { timerArmed := true, fp := some { pcid := some "p" } }).storePd
        = some (applyResponse true 2000
            (some { ls := some true, data := some (RespData.str "abc123") })
            { timerArmed := true, fp := some { pcid := some "p" } }).pd ∧
    (applyResponse true 2000
      (some { ls := some true, data := some (RespData.str "abc123") })
      { timerArmed := true, fp := some { pcid := some "p" } }).prebidCalls
        = ({ timerArmed := true, fp := some { pcid := some "p" } } : MState).prebidCalls
            ++ [PrebidArg.eidsArg ["abc123"]] ∧
    (∃ g, (applyResponse true 2000
      (some { ls := some true, data := some (RespData.str "abc123") })
      { timerArmed := true, fp := some { pcid := some "p" } }).calls
        = ({ timerArmed := true, fp := some { pcid := some "p" } } : MState).calls
            ++ [Delivered.identity (some (RuntimeVal.eidsObj ["abc123"])) g]) :=
  c7_bare_string_response 2000
    { ls := some true, data := some (RespData.str "abc123") }
    { pcid := some "p" }
    { timerArmed := true, fp := some { pcid := some "p" } }
    "abc123" rfl rfl (fun t ht => Option.noConfusion ht) (by decide) rfl
    (by decide) rfl rfl

/-- C7 (counterexample): the bare-string wrapping lives inside the
`if ('ls' in respJson)` block, so the exact spec scenario — a server
response `\x7bdata: "abc123"\x7d` with no `ls` field — leaves the resolved
identity empty, delivers the empty identity, and persists no ciphertext:
after a fresh-browser call issues its request, that response yields
`runtimeEids = \x7beids: []\x7d` and an untouched (blanked) `data` field,
not `\x7beids: ["abc123"]\x7d`. -/
theorem c7_counterexample :
    (runEvs true [Ev.invoke 1500,
        Ev.response 2000 (some { data := some (RespData.str "abc123") })]
      (getId { partner := some 10, callback := true } { now := 1000 } {}).2).runtimeEids
        = some (RuntimeVal.eidsObj []) ∧
    (runEvs true [Ev.invoke 1500,
        Ev.response 2000 (some { data := some (RespData.str "abc123") })]
      (getId { partner := some 10, callback := true } { now := 1000 } {}).2).pd.data
        = DataAtRest.emptyObj ∧
    (runEvs true [Ev.invoke 1500,
        Ev.response 2000 (some { data := some (RespData.str "abc123") })]
      (getId { partner := some 10, callback := true } { now := 1000 } {}).2).prebidCalls
        = [PrebidArg.valArg (some (RuntimeVal.eidsObj []))] := by
  decide

theorem decryptPhase_runtime (st : MState) :
    (decryptPhase st).runtimeEids =
      (match st.pd.data with
       | DataAtRest.str s =>
         if s ≠ "" then tryParseRuntime (decryptData s) else st.runtimeEids
       | _ => st.runtimeEids) := by
  unfold decryptPhase
  cases hd : st.pd.data <;> dsimp only
  case str s => by_cases hc : s ≠ "" <;> simp [hc]

theorem loadPartner_pdData (store : Stored) :
    (loadPartnerPhase (initState store)).pd.data =
      (match store.pd with | some pd => pd.data | none => DataAtRest.undef) ∧
    (loadPartnerPhase (initState store)).runtimeEids
      = some (RuntimeVal.eidsObj []) := by
  have h1 : (initState store).storePd = store.pd := rfl
  unfold loadPartnerPhase
  rw [h1]
  cases hpd : store.pd with
  | none => exact ⟨rfl, rfl⟩
  | some pd =>
    dsimp only
    split <;> exact ⟨rfl, rfl⟩

theorem loadedRuntime_eq (store : Stored) :
    (decryptPhase (loadPartnerPhase (initState store))).runtimeEids
      = decryptResult store.pd := by
  rw [decryptPhase_runtime, (loadPartner_pdData store).1,
    (loadPartner_pdData store).2]
  unfold decryptResult
  cases store.pd with
  | none => rfl
  | some pd => cases pd.data <;> rfl

theorem firePartnerCallback_runtimeEids_not_groupB (h : Bool) (st : MState)
    (hgb : st.isGroupB = false) :
    (firePartnerCallback h st).runtimeEids = st.runtimeEids := by
  unfold firePartnerCallback
  split
  · simp [hgb]
  · rfl

theorem firePartnerCallback_runtimeEids_empty (h : Bool) (st : MState)
    (he : st.runtimeEids = some (RuntimeVal.eidsObj [])) :
    (firePartnerCallback h st).runtimeEids = some (RuntimeVal.eidsObj []) := by
  unfold firePartnerCallback
  split
  · by_cases hb : st.isGroupB = true <;> simp [hb, he]
  · exact he

theorem tail_valid (hasCb : Bool) (f : FirstPartyData) (st : MState)
    (ids : List String)
    (hscs : st.shouldCallServer = false)
    (hgb : st.isGroupB = decide (f.group = some Group.WITHOUT_IIQ))
    (hrt : f.group ≠ some Group.WITHOUT_IIQ →
      st.runtimeEids = some (RuntimeVal.eidsObj ids)) :
    (finishPhase hasCb (groupFirePhase hasCb f st)).1 =
      GetIdResult.idOnly (if f.group = some Group.WITHOUT_IIQ then [] else ids) ∧
    (finishPhase hasCb (groupFirePhase hasCb f st)).2.requests = st.requests ∧
    (finishPhase hasCb (groupFirePhase hasCb f st)).2.shouldCallServer = false := by
  have hYscs : (groupFirePhase hasCb f st).shouldCallServer = false := by
    rw [(groupFirePhase_misc hasCb f st).2.2.2.2.1]
    exact hscs
  have hYgb : (groupFirePhase hasCb f st).isGroupB = st.isGroupB :=
    (groupFirePhase_misc hasCb f st).2.2.2.2.2.2
  have hYreq : (groupFirePhase hasCb f st).requests = st.requests :=
    (groupFirePhase_misc hasCb f st).2.2.2.2.2.1
  rw [finishPhase_sync hasCb _ hYscs]
  by_cases hg : f.group = some Group.WITHOUT_IIQ
  · have hb : (groupFirePhase hasCb f st).isGroupB = true := by
      rw [hYgb, hgb, hg]
      simp
    rw [if_pos hb, if_pos hg]
    refine ⟨?_, ?_, ?_⟩
    · show syncReturn _ = _
      unfold syncReturn
      rw [firePartnerCallback_runtimeEids_empty _ _ rfl]
    · rw [firePartnerCallback_requests]
      exact hYreq
    · rw [firePartnerCallback_shouldCallServer]
      exact hYscs
  · have hb : (groupFirePhase hasCb f st).isGroupB = false := by
      rw [hYgb, hgb]
      simp [hg]
    have hYrt : (groupFirePhase hasCb f st).runtimeEids =
        some (RuntimeVal.eidsObj ids) := by
      unfold groupFirePhase
      split
      · rw [firePartnerCallback_runtimeEids_not_groupB hasCb st (by rw [hgb]; simp [hg])]
        exact hrt hg
      · exact hrt hg
    rw [if_neg (by simp [hb]), if_neg hg]
    refine ⟨?_, ?_, ?_⟩
    · show syncReturn _ = _
      unfold syncReturn
      rw [firePartnerCallback_runtimeEids_not_groupB _ _ hb, hYrt]
    · rw [firePartnerCallback_requests]
      exact hYreq
    · rw [firePartnerCallback_shouldCallServer]
      exact hYscs

/-- C5: for every valid cached state — a stored first-party record with a
`pcid`, a truthy unexpired `cttl` (`now - date ≤ cttl`), and both consent
signals matching the stored snapshot — and a partner record whose data
decrypts to the cached identity `ids`, `getId` issues zero network
requests, requires no server round trip, and returns the cached identity
synchronously, forced to empty when the cohort is `WITHOUT_IIQ`. -/
theorem c5_valid_cache_synchronous (cfg : ConfigParams) (env : Env)
    (store : Stored) (f : FirstPartyData) (n c d : Int) (ids : List String)
    (hfp : store.fp = some f) (hpcid : jsTruthyStrOpt f.pcid = true)
    (hpd : jsFalsyOptInt f.pcidDate = false)
    (hp : cfg.partner = some n) (hbl : blacklistHit cfg env = false)
    (hcttl : f.cttl = some c) (hc0 : c ≠ 0)
    (hdate : f.date = some d) (helapsed : env.now - d ≤ c)
    (husp : f.uspapi_value = cmpUsPrivacy env)
    (hgpp : f.gpp_string_value = some env.gppString)
    (hdata : decryptResult store.pd = some (RuntimeVal.eidsObj ids)) :
    (getId cfg env store).1 =
      GetIdResult.idOnly (if f.group = some Group.WITHOUT_IIQ then [] else ids) ∧
    (getId cfg env store).2.requests = 0 ∧
    (getId cfg env store).2.shouldCallServer = false := by
  have hci : cacheInvalid f env = false := by
    simp [cacheInvalid, jsFalsyOptInt, hcttl, hdate, husp, hgpp, hc0]
    omega
  have hrun : getId cfg env store =
      finishPhase cfg.callback (groupFirePhase cfg.callback
        (invalidPhase cfg.callback env f
          (decryptPhase (loadPartnerPhase (initState store)))).1
        (invalidPhase cfg.callback env f
          (decryptPhase (loadPartnerPhase (initState store)))).2) := by
    unfold getId
    rw [if_neg (by simp [hp]), if_neg (by simp [hbl]),
      ensurePhase_of_pcid env (initState store) f (by simpa [initState] using hfp) hpcid hpd]
  have hDrt : (decryptPhase (loadPartnerPhase (initState store))).runtimeEids
      = some (RuntimeVal.eidsObj ids) := by
    rw [loadedRuntime_eq]
    exact hdata
  have hDscs : (decryptPhase (loadPartnerPhase (initState store))).shouldCallServer
      = false := by
    rw [(decryptPhase_misc _).2.2.2.2.2.2.2.1, (loadPartnerPhase_misc _).2.2.2.2.1]
    rfl
  have hDreq : (decryptPhase (loadPartnerPhase (initState store))).requests = 0 := by
    rw [(decryptPhase_misc _).2.2.2.2.2.2.2.2.1, (loadPartnerPhase_misc _).2.2.2.2.2.1]
    rfl
  have hDgb : (decryptPhase (loadPartnerPhase (initState store))).isGroupB
      = decide (f.group = some Group.WITHOUT_IIQ) := by
    rw [(decryptPhase_misc _).2.2.2.2.2.2.1, (loadPartnerPhase_misc _).2.2.2.1]
    show decide ((store.fp.bind (fun f => f.group)) = some Group.WITHOUT_IIQ) = _
    rw [hfp]
    rfl
  rw [hrun]
  by_cases ho : f.isOptedOut = some true
  · rw [invalidPhase_valid_opted cfg.callback env f _ hci ho]
    have h := tail_valid cfg.callback f
      (firePartnerCallback cfg.callback (decryptPhase (loadPartnerPhase (initState store)))) ids
      (by rw [firePartnerCallback_shouldCallServer]; exact hDscs)
      (by rw [firePartnerCallback_isGroupB]; exact hDgb)
      (fun hg => by
        rw [firePartnerCallback_runtimeEids_not_groupB _ _ (by rw [hDgb]; simp [hg])]
        exact hDrt)
    refine ⟨h.1, ?_, h.2.2⟩
    rw [h.2.1, firePartnerCallback_requests]
    exact hDreq
  · rw [invalidPhase_valid_notOpted cfg.callback env f _ hci ho]
    have h := tail_valid cfg.callback f
      (decryptPhase (loadPartnerPhase (initState store))) ids
      hDscs hDgb (fun _ => hDrt)
    refine ⟨h.1, ?_, h.2.2⟩
    rw [h.2.1]
    exact hDreq

/-- C5 witness: an unexpired cached state whose partner data decrypts to
`\x7beids: ["cached-id"]\x7d` is returned synchronously with no request. -/
theorem c5_witness :
    (getId { partner := some 4, callback := true }
      { now := 2000, uspData := some "u", gppString := "g" }
      { fp := some { pcid := some "p", pcidDate := some 1, group := some Group.WITH_IIQ, cttl := some 86400000, date := some 1000, uspapi_value := some "u", gpp_string_value := some "g" },
        pd := some { data := DataAtRest.str (encryptData (jsonStringifyIdentity ["cached-id"])) } }).1 =
      GetIdResult.idOnly
        (if (some Group.WITH_IIQ : Option Group) = some Group.WITHOUT_IIQ then []
          else ["cached-id"]) ∧
    (getId { partner := some 4, callback := true }
      { now := 2000, uspData := some "u", gppString := "g" }
      { fp := some { pcid := some "p", pcidDate := some 1, group := some Group.WITH_IIQ, cttl := some 86400000, date := some 1000, uspapi_value := some "u", gpp_string_value := some "g" },
        pd := some { data := DataAtRest.str (encryptData (jsonStringifyIdentity ["cached-id"])) } }).2.requests = 0 ∧
    (getId { partner := some 4, callback := true }
      { now := 2000, uspData := some "u", gppString := "g" }
      { fp := some { pcid := some "p", pcidDate := some 1, group := some Group.WITH_IIQ, cttl := some 86400000, date := some 1000, uspapi_value := some "u", gpp_string_value := some "g" },
        pd := some { data := DataAtRest.str (encryptData (jsonStringifyIdentity ["cached-id"])) } }).2.shouldCallServer = false :=
  c5_valid_cache_synchronous { partner := some 4, callback := true }
    { now := 2000, uspData := some "u", gppString := "g" }
    { fp := some { pcid := some "p", pcidDate := some 1, group := some Group.WITH_IIQ, cttl := some 86400000, date := some 1000, uspapi_value := some "u", gpp_string_value := some "g" },
      pd := some { data := DataAtRest.str (encryptData (jsonStringifyIdentity ["cached-id"])) } }
    { pcid := some "p", pcidDate := some 1, group := some Group.WITH_IIQ, cttl := some 86400000, date := some 1000, uspapi_value := some "u", gpp_string_value := some "g" }
    4 86400000 1000 ["cached-id"]
    rfl (by decide) (by decide) rfl (by decide) rfl (by decide) rfl (by decide)
    (by decide) rfl (by decide)

/-- C6 (code bug): with an unexpired first-party record (cohort `WITH_IIQ`,
one-day `cttl`, matching consent) and a partner record whose `data` is the
plaintext `INVALID_ID` sentinel — exactly what a `\x7bdata: "", ls: true\x7d`
response leaves behind — the decrypt+parse failure sets the working resolved
identity to null rather than the empty identity, the callback is fired with
that null value, and the synchronous return path evaluates
`runtimeEids.eids` on null, raising an uncaught TypeError out of `getId`. -/
theorem c6_decrypt_failure_throws :
    (getId { partner := some 10, callback := true }
      { now := 1000, uspData := some "u", gppString := "g" }
      { fp := some { pcid := some "p", pcidDate := some 5, group := some Group.WITH_IIQ, cttl := some 86400000, date := some 1000, uspapi_value := some "u", gpp_string_value := some "g" },
        pd := some { data := DataAtRest.str "INVALID_ID" } }).1 = GetIdResult.threw ∧
    (getId { partner := some 10, callback := true }
      { now := 1000, uspData := some "u", gppString := "g" }
      { fp := some { pcid := some "p", pcidDate := some 5, group := some Group.WITH_IIQ, cttl := some 86400000, date := some 1000, uspapi_value := some "u", gpp_string_value := some "g" },
        pd := some { data := DataAtRest.str "INVALID_ID" } }).2.runtimeEids = none ∧
    (getId { partner := some 10, callback := true }
      { now := 1000, uspData := some "u", gppString := "g" }
      { fp := some { pcid := some "p", pcidDate := some 5, group := some Group.WITH_IIQ, cttl := some 86400000, date := some 1000, uspapi_value := some "u", gpp_string_value := some "g" },
        pd := some { data := DataAtRest.str "INVALID_ID" } }).2.calls =
      [Delivered.identity none Group.WITH_IIQ] := by
  decide

/-! ## C8: the hard opt-out termination cause -/

theorem firePartnerCallback_spec (h : Bool) (st : MState) :
    firePartnerCallback h st = if h = true ∧ st.callbackFired = false then
      { st with
        callbackFired := true
        timerArmed := false
        runtimeEids :=
          (if st.isGroupB then some (RuntimeVal.eidsObj []) else st.runtimeEids)
        calls := st.calls ++ [Delivered.identity
          (if st.isGroupB then some (RuntimeVal.eidsObj []) else st.runtimeEids)
          (groupLabel st.fp)] }
    else st := rfl

theorem defineEmptyDataAndFireCallback_spec (hasCb : Bool) (f : FirstPartyData) (st : MState) :
    (defineEmptyDataAndFireCallback hasCb f st).storeFp = some f ∧
    (defineEmptyDataAndFireCallback hasCb f st).runtimeEids = some (RuntimeVal.eidsObj []) ∧
    (defineEmptyDataAndFireCallback hasCb f st).storePd =
      some { st.pd with data := DataAtRest.eidsObj [], eidl := some (-1) } := by
  unfold defineEmptyDataAndFireCallback storeFirstPartyData firePartnerCallback
  dsimp only
  split
  · exact ⟨rfl, by simp, rfl⟩
  · exact ⟨rfl, rfl, rfl⟩

theorem tail_groupB (hasCb : Bool) (f : FirstPartyData) (st : MState)
    (hscs : st.shouldCallServer = false)
    (hgb : st.isGroupB = true)
    (hg : f.group = some Group.WITHOUT_IIQ)
    (hfp : st.fp = some f) :
    (finishPhase hasCb (groupFirePhase hasCb f st)).1 = GetIdResult.idOnly [] ∧
    (finishPhase hasCb (groupFirePhase hasCb f st)).2.requests = st.requests ∧
    (finishPhase hasCb (groupFirePhase hasCb f st)).2.calls =
      st.calls ++ (if hasCb = true ∧ st.callbackFired = false then
        [Delivered.identity (some (RuntimeVal.eidsObj [])) Group.WITHOUT_IIQ]
      else []) := by
  have hgl : groupLabel (some f) = Group.WITHOUT_IIQ := by
    simp [groupLabel, hg]
  have hY : groupFirePhase hasCb f st = firePartnerCallback hasCb st := by
    unfold groupFirePhase
    rw [if_pos (Or.inl hg)]
  rw [hY, firePartnerCallback_spec]
  by_cases hc : hasCb = true ∧ st.callbackFired = false
  · rw [if_pos hc, if_pos hc]
    have hscs2 : (({ st with
        callbackFired := true
        timerArmed := false
        runtimeEids :=
          (if st.isGroupB then some (RuntimeVal.eidsObj []) else st.runtimeEids)
        calls := st.calls ++ [Delivered.identity
          (if st.isGroupB then some (RuntimeVal.eidsObj []) else st.runtimeEids)
          (groupLabel st.fp)] } : MState)).shouldCallServer = false := hscs
    rw [finishPhase_sync hasCb _ hscs2]
    rw [if_pos (show (({ st with
        callbackFired := true
        timerArmed := false
        runtimeEids :=
          (if st.isGroupB then some (RuntimeVal.eidsObj []) else st.runtimeEids)
        calls := st.calls ++ [Delivered.identity
          (if st.isGroupB then some (RuntimeVal.eidsObj []) else st.runtimeEids)
          (groupLabel st.fp)] } : MState)).isGroupB = true from hgb)]
    rw [firePartnerCallback_spec]
    rw [if_neg (by simp)]
    refine ⟨rfl, rfl, ?_⟩
    rw [hfp, hgl, hgb]
    simp
  · rw [if_neg hc, if_neg hc]
    rw [finishPhase_sync hasCb st hscs, if_pos hgb, firePartnerCallback_spec,
      if_neg (by
        intro hcontra
        exact hc ⟨hcontra.1, hcontra.2⟩)]
    exact ⟨rfl, rfl, by simp⟩

theorem getId_groupB_empty (cfg : ConfigParams) (env : Env) (store : Stored)
    (f : FirstPartyData) (n : Int)
    (hfp : store.fp = some f) (hg : f.group = some Group.WITHOUT_IIQ)
    (hpcid : jsTruthyStrOpt f.pcid = true) (hpd : jsFalsyOptInt f.pcidDate = false)
    (hp : cfg.partner = some n) (hbl : blacklistHit cfg env = false)
    (hci : cacheInvalid f env = false) :
    (getId cfg env store).1 = GetIdResult.idOnly [] ∧
    (getId cfg env store).2.requests = 0 ∧
    (getId cfg env store).2.calls =
      (if cfg.callback then
        [Delivered.identity (some (RuntimeVal.eidsObj [])) Group.WITHOUT_IIQ]
      else []) := by
  have hrun : getId cfg env store =
      finishPhase cfg.callback (groupFirePhase cfg.callback
        (invalidPhase cfg.callback env f
          (decryptPhase (loadPartnerPhase (initState store)))).1
        (invalidPhase cfg.callback env f
          (decryptPhase (loadPartnerPhase (initState store)))).2) := by
    unfold getId
    rw [if_neg (by simp [hp]), if_neg (by simp [hbl]),
      ensurePhase_of_pcid env (initState store) f (by simpa [initState] using hfp) hpcid hpd]
  have hDfp : (decryptPhase (loadPartnerPhase (initState store))).fp = some f := by
    rw [(decryptPhase_misc _).1, loadPartnerPhase_fp]
    exact hfp
  have hDscs : (decryptPhase (loadPartnerPhase (initState store))).shouldCallServer
      = false := by
    rw [(decryptPhase_misc _).2.2.2.2.2.2.2.1, (loadPartnerPhase_misc _).2.2.2.2.1]
    rfl
  have hDreq : (decryptPhase (loadPartnerPhase (initState store))).requests = 0 := by
    rw [(decryptPhase_misc _).2.2.2.2.2.2.2.2.1, (loadPartnerPhase_misc _).2.2.2.2.2.1]
    rfl
  have hDgb : (decryptPhase (loadPartnerPhase (initState store))).isGroupB = true := by
    rw [(decryptPhase_misc _).2.2.2.2.2.2.1, (loadPartnerPhase_misc _).2.2.2.1]
    show decide ((store.fp.bind (fun f => f.group)) = some Group.WITHOUT_IIQ) = true
    rw [hfp]
    simp [hg]
  have hDcf : (decryptPhase (loadPartnerPhase (initState store))).callbackFired
      = false := by
    rw [(decryptPhase_misc _).2.2.2.2.1, (loadPartnerPhase_misc _).2.1]
    rfl
  have hDcalls : (decryptPhase (loadPartnerPhase (initState store))).calls = [] := by
    rw [(decryptPhase_misc _).2.2.2.2.2.2.2.2.2, (loadPartnerPhase_misc _).2.2.2.2.2.2]
    rfl
  rw [hrun]
  by_cases ho : f.isOptedOut = some true
  · rw [invalidPhase_valid_opted cfg.callback env f _ hci ho]
    have h := tail_groupB cfg.callback f
      (firePartnerCallback cfg.callback (decryptPhase (loadPartnerPhase (initState store))))
      (by rw [firePartnerCallback_shouldCallServer]; exact hDscs)
      (by rw [firePartnerCallback_isGroupB]; exact hDgb)
      hg
      (by rw [firePartnerCallback_fp]; exact hDfp)
    refine ⟨h.1, ?_, ?_⟩
    · rw [h.2.1, firePartnerCallback_requests]
      exact hDreq
    · rw [h.2.2, firePartnerCallback_spec]
      by_cases hcb : cfg.callback = true
      · rw [if_pos ⟨hcb, hDcf⟩]
        simp only [hDcalls, hDgb, hDfp, hcb]
        have hgl : groupLabel (some f) = Group.WITHOUT_IIQ := by
          simp [groupLabel, hg]
        simp [hgl]
      · have hcb2 : cfg.callback = false := by
          cases hcbv : cfg.callback
          · rfl
          · exact absurd hcbv hcb
        rw [if_neg (by simp [hcb2])]
        simp [hDcalls, hDcf, hcb2]
  · rw [invalidPhase_valid_notOpted cfg.callback env f _ hci ho]
    have h := tail_groupB cfg.callback f
      (decryptPhase (loadPartnerPhase (initState store)))
      hDscs hDgb hg hDfp
    refine ⟨h.1, ?_, ?_⟩
    · rw [h.2.1]
      exact hDreq
    · rw [h.2.2, hDcalls, hDcf]
      cases hcb : cfg.callback <;> simp

/-- C8: for every server response with `tc = 41` (and no explicit `cttl`),
applying the response persists the first-party record with the cohort
forced to `WITHOUT_IIQ` (alongside the refreshed `date` and the one-day
default `cttl`), clears the resolved identity to empty, persists the
partner record with blanked `data`/`eidl`, and every subsequent resolution
call on that stored, unexpired state (elapsed time within the one-day
`cttl`, matching consent) issues no request and again delivers and returns
the empty identity. -/
theorem c8_tc41_opt_out (hasCb : Bool) (now2 : Int) (r : RespJson)
    (f : FirstPartyData) (st : MState)
    (cfg2 : ConfigParams) (env2 : Env) (n2 : Int)
    (hfp : st.fp = some f)
    (htc : r.tc = some 41) (hct : r.cttl = none)
    (hpcid : jsTruthyStrOpt f.pcid = true)
    (hpcd : jsFalsyOptInt f.pcidDate = false)
    (hp2 : cfg2.partner = some n2) (hbl2 : blacklistHit cfg2 env2 = false)
    (helapsed2 : env2.now - now2 ≤ 86400000)
    (husp2 : f.uspapi_value = cmpUsPrivacy env2)
    (hgpp2 : f.gpp_string_value = some env2.gppString) :
    (applyResponse hasCb now2 (some r) st).storeFp =
      some { f with date := some now2, cttl := some 86400000, group := some Group.WITHOUT_IIQ } ∧
    (applyResponse hasCb now2 (some r) st).runtimeEids =
      some (RuntimeVal.eidsObj []) ∧
    (∃ pdP : PartnerData,
      (applyResponse hasCb now2 (some r) st).storePd = some pdP ∧
      pdP.data = DataAtRest.eidsObj [] ∧ pdP.eidl = some (-1)) ∧
    (getId cfg2 env2
      { fp := (applyResponse hasCb now2 (some r) st).storeFp
        pd := (applyResponse hasCb now2 (some r) st).storePd }).1 =
      GetIdResult.idOnly [] ∧
    (getId cfg2 env2
      { fp := (applyResponse hasCb now2 (some r) st).storeFp
        pd := (applyResponse hasCb now2 (some r) st).storePd }).2.requests = 0 ∧
    (getId cfg2 env2
      { fp := (applyResponse hasCb now2 (some r) st).storeFp
        pd := (applyResponse hasCb now2 (some r) st).storePd }).2.calls =
      (if cfg2.callback then
        [Delivered.identity (some (RuntimeVal.eidsObj [])) Group.WITHOUT_IIQ]
      else []) := by
  have h0 : applyResponse hasCb now2 (some r) st =
      applyValidResponse hasCb now2 r f st := by
    unfold applyResponse
    rw [hfp]
  have h1 : applyValidResponse hasCb now2 r f st =
      defineEmptyDataAndFireCallback hasCb
        { f with date := some now2, cttl := some (r.cttl.getD 86400000), group := some Group.WITHOUT_IIQ }
        { st with
          timerArmed := false
          pd := { st.pd with date := some now2, terminationCause := some 41 }
          fp := some { f with date := some now2, cttl := some (r.cttl.getD 86400000), group := some Group.WITHOUT_IIQ }
          storeFp := some { f with date := some now2, cttl := some (r.cttl.getD 86400000), group := some Group.WITHOUT_IIQ } } := by
    unfold applyValidResponse
    rw [htc]
    dsimp only
    rw [if_pos (rfl : (41 : Int) = 41)]
  have hE := defineEmptyDataAndFireCallback_spec hasCb
    { f with date := some now2, cttl := some (r.cttl.getD 86400000), group := some Group.WITHOUT_IIQ }
    { st with
      timerArmed := false
      pd := { st.pd with date := some now2, terminationCause := some 41 }
      fp := some { f with date := some now2, cttl := some (r.cttl.getD 86400000), group := some Group.WITHOUT_IIQ }
      storeFp := some { f with date := some now2, cttl := some (r.cttl.getD 86400000), group := some Group.WITHOUT_IIQ } }
  have hcttl : r.cttl.getD 86400000 = 86400000 := by
    rw [hct]
    rfl
  have hA : (applyResponse hasCb now2 (some r) st).storeFp =
      some { f with date := some now2, cttl := some 86400000, group := some Group.WITHOUT_IIQ } := by
    rw [h0, h1, hE.1, hcttl]
  have hB : (applyResponse hasCb now2 (some r) st).storePd =
      some { st.pd with date := some now2, terminationCause := some 41, data := DataAtRest.eidsObj [], eidl := some (-1) } := by
    rw [h0, h1, hE.2.2]
  have hRT : (applyResponse hasCb now2 (some r) st).runtimeEids =
      some (RuntimeVal.eidsObj []) := by
    rw [h0, h1]
    exact hE.2.1
  have hci2 : cacheInvalid
      { f with date := some now2, cttl := some 86400000, group := some Group.WITHOUT_IIQ } env2 = false := by
    simp [cacheInvalid, jsFalsyOptInt, husp2, hgpp2]
    omega
  have hsub := getId_groupB_empty cfg2 env2
    { fp := some { f with date := some now2, cttl := some 86400000, group := some Group.WITHOUT_IIQ }
      pd := some { st.pd with date := some now2, terminationCause := some 41, data := DataAtRest.eidsObj [], eidl := some (-1) } }
    { f with date := some now2, cttl := some 86400000, group := some Group.WITHOUT_IIQ }
    n2 rfl rfl hpcid hpcd hp2 hbl2 hci2
  rw [hA, hB]
  exact ⟨rfl, hRT, ⟨_, rfl, rfl, rfl⟩, hsub.1, hsub.2.1, hsub.2.2⟩

/-- C8 witness: a concrete `tc: 41` response after a fresh mid-flight call,
followed by a second call 1000 ms later with the same consent signals. -/
theorem c8_witness :
    (applyResponse true 2000 (some { tc := some 41 })
      { timerArmed := true
        fp := some { pcid := some "p", pcidDate := some 1, uspapi_value := some "u", gpp_string_value := some "g" } }).storeFp =
      some { pcid := some "p", pcidDate := some 1, uspapi_value := some "u", gpp_string_value := some "g", date := some 2000, cttl := some 86400000, group := some Group.WITHOUT_IIQ } ∧
    (applyResponse true 2000 (some { tc := some 41 })
      { timerArmed := true
        fp := some { pcid := some "p", pcidDate := some 1, uspapi_value := some "u", gpp_string_value := some "g" } }).runtimeEids =
      some (RuntimeVal.eidsObj []) ∧
    (∃ pdP : PartnerData,
      (applyResponse true 2000 (some { tc := some 41 })
        { timerArmed := true
          fp := some { pcid := some "p", pcidDate := some 1, uspapi_value := some "u", gpp_string_value := some "g" } }).storePd = some pdP ∧
      pdP.data = DataAtRest.eidsObj [] ∧ pdP.eidl = some (-1)) ∧
    (getId { partner := some 9, callback := true }
      { now := 3000, uspData := some "u", gppString := "g" }
      { fp := (applyResponse true 2000 (some { tc := some 41 })
          { timerArmed := true
            fp := some { pcid := some "p", pcidDate := some 1, uspapi_value := some "u", gpp_string_value := some "g" } }).storeFp
        pd := (applyResponse true 2000 (some { tc := some 41 })
          { timerArmed := true
            fp := some { pcid := some "p", pcidDate := some 1, uspapi_value := some "u", gpp_string_value := some "g" } }).storePd }).1 =
      GetIdResult.idOnly [] ∧
    (getId { partner := some 9, callback := true }
      { now := 3000, uspData := some "u", gppString := "g" }
      { fp := (applyResponse true 2000 (some { tc := some 41 })
          { timerArmed := true
            fp := some { pcid := some "p", pcidDate := some 1, uspapi_value := some "u", gpp_string_value := some "g" } }).storeFp
        pd := (applyResponse true 2000 (some { tc := some 41 })
          { timerArmed := true
            fp := some { pcid := some "p", pcidDate := some 1, uspapi_value := some "u", gpp_string_value := some "g" } }).storePd }).2.requests = 0 ∧
    (getId { partner := some 9, callback := true }
      { now := 3000, uspData := some "u", gppString := "g" }
      { fp := (applyResponse true 2000 (some { tc := some 41 })
          { timerArmed := true
            fp := some { pcid := some "p", pcidDate := some 1, uspapi_value := some "u", gpp_string_value := some "g" } }).storeFp
        pd := (applyResponse true 2000 (some { tc := some 41 })
          { timerArmed := true
            fp := some { pcid := some "p", pcidDate := some 1, uspapi_value := some "u", gpp_string_value := some "g" } }).storePd }).2.calls =
      (if ({ partner := some 9, callback := true } : ConfigParams).callback then
        [Delivered.identity (some (RuntimeVal.eidsObj [])) Group.WITHOUT_IIQ]
      else []) :=
  c8_tc41_opt_out true 2000 { tc := some 41 }
    { pcid := some "p", pcidDate := some 1, uspapi_value := some "u", gpp_string_value := some "g" }
    { timerArmed := true
      fp := some { pcid := some "p", pcidDate := some 1, uspapi_value := some "u", gpp_string_value := some "g" } }
    { partner := some 9, callback := true }
    { now := 3000, uspData := some "u", gppString := "g" }
    9 rfl rfl rfl (by decide) (by decide) rfl (by decide) (by norm_num) rfl rfl

end IntentIq
